import Mathlib

/-!
go-dexcom: request building and response interpretation.

A shallow embedding of `dexcom/client.go` and `dexcom/types.go`.

* Go strings are Lean `String`s, `len` counts UTF-8 bytes.
* Go `int`/`int64` values are `Int`; where the source does arithmetic on them
  (the expiry computation) the 64-bit wrap-around is explicit.
* The collaborators that are not part of the repository (the transport
  `client.BaseClient`, `json.Unmarshal`, `client.ObjectToJSONReader`,
  `time.Now`) are oracles; every call to one of them is recorded in a trace, so
  that "is not invoked" and "is invoked once" are statements about the trace.
* The Go standard library functions whose output the claims talk about
  (`http.Header.Set/Add`, `url.Values.Set/Encode`, `fmt.Sprintf`,
  `time.Time.UTC/Format/Add`) are embedded by their documented behaviour.
-/

namespace dexcom

/-! ## Go values -/

/-- Go `len(s)` for a string: its number of bytes. -/
def len (s : String) : Nat := s.utf8ByteSize

/-- A Go `error` value, identified by its `Error()` text. -/
structure GoError where
  text : String
deriving DecidableEq, Repr

/-- The method `Error()` of a Go `error`. -/
def GoError.Error (e : GoError) : String := e.text

/-- A `glitch.DataError`: the wrapped error, the code and the message that
`glitch.NewDataError` was given. -/
structure DataError where
  inner : Option GoError
  code : String
  msg : String
deriving DecidableEq, Repr

/-- Constructor `glitch.NewDataError(err, code, msg)`. -/
def NewDataError (err : Option GoError) (code msg : String) : DataError :=
  { inner := err, code := code, msg := msg }

/-- The method `Code()` of a `glitch.DataError`. -/
def DataError.Code (e : DataError) : String := e.code

/-- An IEEE-754 binary64 value, given by its bit pattern. No operation of the
client computes with these values; they are only carried. -/
structure float64 where
  bits : Nat
deriving DecidableEq, Repr

/-! ## fmt.Sprintf -/

/-- An operand of `fmt.Sprintf`. -/
inductive FmtArg where
  | int (n : Int)
  | str (s : String)
deriving DecidableEq, Repr

/-- The loop of `fmt.Sprintf` for the verbs `%d` (decimal integer) and `%s`
(string); other characters are copied. -/
def Sprintf.go : String → List Char → List FmtArg → String
  | acc, '%' :: 'd' :: rest, FmtArg.int n :: args => Sprintf.go (acc ++ toString n) rest args
  | acc, '%' :: 's' :: rest, FmtArg.str s :: args => Sprintf.go (acc ++ s) rest args
  | acc, c :: rest, args => Sprintf.go (acc.push c) rest args
  | acc, [], _ => acc

/-- Go `fmt.Sprintf(format, args...)`, for the verbs `%d` and `%s`. -/
def Sprintf (format : String) (args : List FmtArg) : String :=
  Sprintf.go "" format.toList args

/-- Go `fmt.Errorf(format, args...)`: an error whose text is the formatted string. -/
def Errorf (format : String) (args : List FmtArg) : GoError :=
  { text := Sprintf format args }

/-! ## map[string][]string, http.Header and url.Values -/

/-- A Go `map[string][]string`. The entries are kept in the order in which
their keys were first stored; every key occurs once. -/
abbrev StringsMap := List (String × List String)

/-- Map lookup `m[key]`: the stored slice, the nil slice for an absent key. -/
def StringsMap.get (m : StringsMap) (key : String) : List String :=
  match m with
  | [] => []
  | (k, vs) :: rest => if k = key then vs else StringsMap.get rest key

/-- Map store `m[key] = vs`. -/
def StringsMap.put (m : StringsMap) (key : String) (vs : List String) : StringsMap :=
  match m with
  | [] => [(key, vs)]
  | (k, ws) :: rest =>
    if k = key then (key, vs) :: rest else (k, ws) :: StringsMap.put rest key vs

/-- The keys of a map. -/
def StringsMap.keys (m : StringsMap) : List String := m.map Prod.fst

/-- Go `validHeaderFieldByte`: the token characters of RFC 7230. -/
def validHeaderFieldByte (c : Char) : Bool :=
  c.isAlphanum ||
    ['!', '#', '$', '%', '&', '\x27', '*', '+', '-', '.', '^', '_', '\x60', '|', '~'].contains c

/-- The loop of `textproto.canonicalMIMEHeaderKey`: the first letter and every
letter after a hyphen is upper-cased, the others are lower-cased. -/
def canonicalLoop : Bool → List Char → List Char
  | _, [] => []
  | upper, c :: rest =>
    let c1 := if upper && c.isLower then c.toUpper
              else if !upper && c.isUpper then c.toLower else c
    c1 :: canonicalLoop (c1 == '-') rest

/-- Go `textproto.CanonicalMIMEHeaderKey`: a key with a byte that is not a
token character is returned unchanged. -/
def CanonicalMIMEHeaderKey (s : String) : String :=
  if s.toList.all validHeaderFieldByte then String.mk (canonicalLoop true s.toList) else s

/-- Go `http.Header`. -/
abbrev Header := StringsMap

/-- Go `http.Header.Set(key, value)`. -/
def Header.Set (h : Header) (key value : String) : Header :=
  StringsMap.put h (CanonicalMIMEHeaderKey key) [value]

/-- Go `http.Header.Add(key, value)`. -/
def Header.Add (h : Header) (key value : String) : Header :=
  let k := CanonicalMIMEHeaderKey key
  StringsMap.put h k (StringsMap.get h k ++ [value])

/-- Go `url.Values`. -/
abbrev Values := StringsMap

/-- Go `url.Values.Set(key, value)`. -/
def Values.Set (v : Values) (key value : String) : Values :=
  StringsMap.put v key [value]

/-- The UTF-8 bytes of a character. -/
def utf8Bytes (c : Char) : List Nat :=
  let v := c.toNat
  if v < 0x80 then [v]
  else if v < 0x800 then [0xC0 + v / 0x40, 0x80 + v % 0x40]
  else if v < 0x10000 then [0xE0 + v / 0x1000, 0x80 + v / 0x40 % 0x40, 0x80 + v % 0x40]
  else [0xF0 + v / 0x40000, 0x80 + v / 0x1000 % 0x40, 0x80 + v / 0x40 % 0x40, 0x80 + v % 0x40]

/-- The digit of `"0123456789ABCDEF"` at index `n`. -/
def upperhex (n : Nat) : Char :=
  "0123456789ABCDEF".toList.getD n '0'

/-- Go `url.shouldEscape(c, encodeQueryComponent)`: only letters, digits and
`-_.~` are left alone. -/
def shouldEscape (c : Char) : Bool :=
  !(c.isAlphanum || c == '-' || c == '_' || c == '.' || c == '~')

/-- One character of `url.QueryEscape`: a space becomes `+`, an escaped
character becomes `%XX` for each of its bytes. -/
def escapeChar (c : Char) : List Char :=
  if c == ' ' then ['+']
  else if shouldEscape c then
    (utf8Bytes c).flatMap fun b => ['%', upperhex (b / 16), upperhex (b % 16)]
  else [c]

/-- Go `url.QueryEscape`. -/
def QueryEscape (s : String) : String :=
  String.mk (s.toList.flatMap escapeChar)

/-- Go's `<` on strings (bytewise, which for UTF-8 is by code point). -/
def stringLess : List Char → List Char → Bool
  | [], [] => false
  | [], _ :: _ => true
  | _ :: _, [] => false
  | a :: as, b :: bs => a.toNat < b.toNat || (a.toNat == b.toNat && stringLess as bs)

/-- Insertion of a key into a sorted list of keys. -/
def insertKey (k : String) : List String → List String
  | [] => [k]
  | x :: xs => if stringLess k.toList x.toList then k :: x :: xs else x :: insertKey k xs

/-- Go `sort.Strings`. -/
def sortStrings (ks : List String) : List String :=
  ks.foldr insertKey []

/-- The body of the loops of `url.Values.Encode`: for each key in order and
each of its values, `key=value` escaped, separated by `&`. -/
def encodePairs (v : Values) (ks : List String) : List String :=
  ks.flatMap fun k => (StringsMap.get v k).map fun x => QueryEscape k ++ "=" ++ QueryEscape x

/-- Go `url.Values.Encode`: the pairs sorted by key. -/
def Values.Encode (v : Values) : String :=
  "&".intercalate (encodePairs v (sortStrings (StringsMap.keys v)))

/-! ## time -/

/-- A Go `*time.Location`: its name and the offset, in seconds east of UTC,
that it has in force at each Unix second. -/
structure Location where
  name : String
  lookup : Int → Int

/-- Go `time.UTC`. -/
def utcLoc : Location := { name := "UTC", lookup := fun _ => 0 }

/-- A Go `time.Time`: an instant, as nanoseconds since the Unix epoch, and the
location it is presented in. -/
structure Time where
  unixNano : Int
  loc : Location

/-- The 64-bit two's complement value of an integer: the result Go gives for
`int64` arithmetic whose exact result is `x`. -/
def wrapInt64 (x : Int) : Int := (x + 2 ^ 63) % 2 ^ 64 - 2 ^ 63

/-- Go `time.Second`, a `time.Duration` (an `int64` count of nanoseconds). -/
def Second : Int := 1000000000

/-- Go `time.Time.UTC`: the same instant with the location set to UTC. -/
def Time.UTC (t : Time) : Time := { t with loc := utcLoc }

/-- Go `time.Time.Add`: the instant `t + d`, `d` in nanoseconds. -/
def Time.Add (t : Time) (d : Int) : Time := { t with unixNano := t.unixNano + d }

/-- Go `time.Time.Equal`: the two times are the same instant. -/
def Time.Equal (t u : Time) : Prop := t.unixNano = u.unixNano

def secondsPerDay : Int := 86400
def daysPer400Years : Int := 365 * 400 + 97
def daysPer100Years : Int := 365 * 100 + 24
def daysPer4Years : Int := 365 * 4 + 1

/-- Seconds from 0001-01-01T00:00:00Z, the zero of a `time.Time`, to the Unix epoch. -/
def unixToInternal : Int := (1969 * 365 + 1969 / 4 - 1969 / 100 + 1969 / 400) * secondsPerDay

/-- The seconds since 0001-01-01T00:00:00 on the clock of the time's location
(`time.Time.abs`, counted from year 1; Go counts, without sign, from a year
some 292 billion years back that is also 1 modulo 400, which gives the same
calendar fields for every instant from that year on; before it Go's count
wraps and, by the comment on its constant, "times will not compute
correctly"). -/
def Time.abs (t : Time) : Int :=
  let sec := t.unixNano / 1000000000
  sec + t.loc.lookup sec + unixToInternal

/-- Go `time.isLeap`. -/
def isLeap (year : Int) : Bool :=
  year % 4 == 0 && (year % 100 != 0 || year % 400 == 0)

/-- Go `time.daysBefore`: the days of a non-leap year before month `m + 1`. -/
def daysBefore (m : Nat) : Int :=
  [0, 31, 59, 90, 120, 151, 181, 212, 243, 273, 304, 334, 365].getD m 365

/-- Go `time.absDate(abs, false)`: the year and the day of the year, from 0. -/
def absYearDay (abs : Int) : Int × Int :=
  let d := abs / secondsPerDay
  -- 400 year cycles
  let n := d / daysPer400Years
  let y := 400 * n
  let d := d - daysPer400Years * n
  -- 100 year cycles
  let n := d / daysPer100Years
  let n := n - n / 4
  let y := y + 100 * n
  let d := d - daysPer100Years * n
  -- 4 year cycles
  let n := d / daysPer4Years
  let y := y + 4 * n
  let d := d - daysPer4Years * n
  -- years within a 4 year cycle
  let n := d / 365
  let n := n - n / 4
  let y := y + n
  let d := d - 365 * n
  (y + 1, d)

/-- The second half of Go `time.absDate(abs, true)`: the month (1..12) and the
day of the month of the day `yday` of `year`. -/
def absMonthDay (year yday : Int) : Int × Int :=
  if isLeap year && yday == 31 + 29 - 1 then
    (2, 29)
  else
    let day := if isLeap year && yday > 31 + 29 - 1 then yday - 1 else yday
    let month := day / 31
    let fin := daysBefore (month.toNat + 1)
    if day ≥ fin then (month + 2, day - fin + 1)
    else (month + 1, day - daysBefore month.toNat + 1)

/-- Go `time.absDate(abs, true)`: the year, month (1..12) and day of the month. -/
def absDate (abs : Int) : Int × Int × Int :=
  ((absYearDay abs).1, absMonthDay (absYearDay abs).1 (absYearDay abs).2)

/-- Go `time.absClock`: hour, minute and second within the day. -/
def absClock (abs : Int) : Int × Int × Int :=
  let sec := abs % secondsPerDay
  let hour := sec / 3600
  let sec := sec - hour * 3600
  let min := sec / 60
  (hour, min, sec - min * 60)

/-- The decimal digit character of `n % 10`. -/
def digitChar (n : Nat) : Char := Char.ofNat (48 + n % 10)

/-- The decimal digits of a natural number, most significant first. -/
def utoa (u : Nat) : List Char := (toString u).toList

/-- Go `time.appendInt(b, x, width)`: a minus sign for a negative number, then
the decimal digits padded with zeros to `width`. -/
def appendInt (b : List Char) (x : Int) (width : Nat) : List Char :=
  let b := if x < 0 then b ++ ['-'] else b
  let u := x.natAbs
  if width = 2 ∧ u < 100 then
    b ++ [digitChar (u / 10), digitChar u]
  else if width = 4 ∧ u < 10000 then
    b ++ [digitChar (u / 1000), digitChar (u / 100), digitChar (u / 10), digitChar u]
  else
    b ++ List.replicate (width - (utoa u).length) '0' ++ utoa u

/-- The loop of `time.Time.AppendFormat` for the layout elements `2006`, `01`,
`02`, `15`, `04` and `05` (the ones of `timeformat`); any other character of
the layout is copied. -/
def appendFormat (date clock : Int × Int × Int) : List Char → List Char → List Char
  | b, '2' :: '0' :: '0' :: '6' :: rest => appendFormat date clock (appendInt b date.1 4) rest
  | b, '0' :: '1' :: rest => appendFormat date clock (appendInt b date.2.1 2) rest
  | b, '0' :: '2' :: rest => appendFormat date clock (appendInt b date.2.2 2) rest
  | b, '1' :: '5' :: rest => appendFormat date clock (appendInt b clock.1 2) rest
  | b, '0' :: '4' :: rest => appendFormat date clock (appendInt b clock.2.1 2) rest
  | b, '0' :: '5' :: rest => appendFormat date clock (appendInt b clock.2.2 2) rest
  | b, c :: rest => appendFormat date clock (b ++ [c]) rest
  | b, [] => b

/-- Go `time.Time.Format(layout)`. -/
def Time.Format (t : Time) (layout : String) : String :=
  String.mk (appendFormat (absDate t.abs) (absClock t.abs) [] layout.toList)

/-! ## types.go -/

/-- AlertSetting describes the settings for a particular alert. -/
structure AlertSetting where
  AlertName : String
  Value : float64
  Unit : String
  Snooze : Int
  Delay : Int
  Enabled : Bool
  SystemTime : String
  DisplayTime : String
deriving DecidableEq, Repr

/-- Device holds device information and alert settings for that device. -/
structure Device where
  Model : String
  LastUploadDate : String
  AlertSettings : List AlertSetting
deriving DecidableEq, Repr

/-- DeviceResponse holds the response from the GET /devices endpoint. -/
structure DeviceResponse where
  Devices : List Device
deriving DecidableEq, Repr

/-- EGV estimated glucose value; a nil pointer is `none`. -/
structure EGV where
  SystemTime : String
  DisplayTime : String
  Value : float64
  Status : Option String
  Trend : Option String
  TrendRate : Option float64
deriving DecidableEq, Repr

/-- EGVResponse holds the response to GET /egvs. -/
structure EGVResponse where
  Unit : String
  RateUnit : String
  EGVs : List EGV
deriving DecidableEq, Repr

/-- Event is a user's event record. -/
structure Event where
  SystemTime : String
  DisplayTime : String
  EventType : String
  EventSubType : String
  Value : float64
  Unit : String
deriving DecidableEq, Repr

/-- EventResponse holds the response to GET /events. -/
structure EventResponse where
  Events : List Event
deriving DecidableEq, Repr

/-- MinMax holds a min and max value. -/
structure MinMax where
  Min : float64
  Max : float64
deriving DecidableEq, Repr

/-- StatRequest is used to fetch statistics. -/
structure StatRequest where
  Name : String
  StartTime : Time
  EndTime : Time
  EGVRange : MinMax

/-- The `map[string][]StatRequest` that `GetStatistics` is given. -/
abbrev Stats := List (String × List StatRequest)

/-- Statistics holds the response to POST /statistics. -/
structure Statistics where
  HypoglycemiaRisk : String
  Min : float64
  Max : float64
  Mean : float64
  Median : float64
  Variance : float64
  StdDev : float64
  Sum : float64
  Q1 : float64
  Q2 : float64
  Q3 : float64
  UtilizationPercent : float64
  MeanDailyCalibrations : float64
  NDays : Int
  NValues : Int
  NBelowRange : Int
  NWithinRange : Int
  NAboveRange : Int
  PercentBelowRange : float64
  PercentWithinRange : float64
  PercentAboveRange : float64
deriving DecidableEq, Repr

/-- UserToken holds the authorization info necessary to access user data. -/
structure UserToken where
  AccessToken : String
  RefreshToken : String
  ExpiresIn : Int
  TokenType : String
  ExpireTime : Option Time

/-! ## The collaborators and the trace of their calls -/

/-- A `context.Context`; the client only hands it on. -/
structure Context where
  id : Nat
deriving DecidableEq, Repr

/-- The arguments of one call of `client.BaseClient.MakeRequest`; a nil
`url.Values` and a nil `io.Reader` are `none`, a reader is given by the text
that is read from it. -/
structure Request where
  ctx : Context
  method : String
  slug : String
  query : Option Values
  headers : Header
  body : Option String
deriving DecidableEq, Repr

/-- A call of a collaborator. -/
inductive Call where
  | MakeRequest (r : Request)
  | Unmarshal (data : String)
  | ObjectToJSONReader (stats : Stats)
  | Now

/-- A computation that calls collaborators: it extends the trace of calls. -/
def Eff (α : Type) : Type := List Call → α × List Call

/-- The computation that calls nothing. -/
def Eff.pure {α : Type} (a : α) : Eff α := fun log => (a, log)

/-- Sequencing of computations. -/
def Eff.bind {α β : Type} (m : Eff α) (f : α → Eff β) : Eff β :=
  fun log => f (m log).1 (m log).2

instance : Monad Eff where
  pure := Eff.pure
  bind := Eff.bind

/-- What a call returns together with the calls made, in order. -/
def Eff.run {α : Type} (m : Eff α) : α × List Call := m []

/-- The transport, `client.BaseClient`: what `MakeRequest` returns for given
arguments (status code, response bytes, error). -/
structure BaseClient where
  transport : Request → Int × String × Option DataError

/-- A call of `client.BaseClient.MakeRequest`. -/
def BaseClient.MakeRequest (c : BaseClient) (ctx : Context) (method slug : String)
    (query : Option Values) (headers : Header) (body : Option String) :
    Eff (Int × String × Option DataError) :=
  fun log =>
    let r : Request := { ctx := ctx, method := method, slug := slug, query := query,
                         headers := headers, body := body }
    (c.transport r, log ++ [Call.MakeRequest r])

/-- The library functions the client calls: `json.Unmarshal` into a new value of
each result type (the decoded value, or the decoder's error),
`client.ObjectToJSONReader` (the reader's content and the error) and the
reading of the clock that `time.Now` returns. -/
structure Runtime where
  unmarshalUserToken : String → Except GoError UserToken
  unmarshalDeviceResponse : String → Except GoError DeviceResponse
  unmarshalEGVResponse : String → Except GoError EGVResponse
  unmarshalEventResponse : String → Except GoError EventResponse
  unmarshalStatistics : String → Except GoError Statistics
  objectToJSONReader : Stats → Option String × Option DataError
  now : Time

/-- A call of `json.Unmarshal(data, result)` with `result` a new value. -/
def Unmarshal {α : Type} (decode : String → Except GoError α) (data : String) :
    Eff (Except GoError α) :=
  fun log => (decode data, log ++ [Call.Unmarshal data])

/-- A call of `client.ObjectToJSONReader(stats)`. -/
def ObjectToJSONReader (rt : Runtime) (stats : Stats) : Eff (Option String × Option DataError) :=
  fun log => (rt.objectToJSONReader stats, log ++ [Call.ObjectToJSONReader stats])

/-- A call of `time.Now()`. -/
def Now (rt : Runtime) : Eff Time :=
  fun log => (rt.now, log ++ [Call.Now])

/-! ## client.go -/

def ErrorAPI : String := "ERROR_API"
def ErrorJSON : String := "ERROR_JSON"
def ErrorMissingParam : String := "ERROR_MISSING_PARAM"

def grantTypeAuthorizationCode : String := "authorization_code"
def grantTypeRefreshToken : String := "refresh_token"

def paramClientID : String := "client_id"
def paramClientSecret : String := "client_secret"
def paramAuthorizationCode : String := "code"
def paramGrantType : String := "grant_type"
def paramRedirectURI : String := "redirect_uri"
def paramRefreshToken : String := "refresh_token"

def paramStartDate : String := "startDate"
def paramEndDate : String := "endDate"

def timeformat : String := "2006-01-02T15:04:05"

/-- Go `http.MethodGet`. -/
def MethodGet : String := "GET"
/-- Go `http.MethodPost`. -/
def MethodPost : String := "POST"

/-- The struct `dexcomClient`. -/
structure dexcomClient where
  c : BaseClient
  clientID : String
  clientSecret : String

/-- The method `getUser`. -/
def dexcomClient.getUser (rt : Runtime) (d : dexcomClient) (ctx : Context)
    (authorizationCode refreshToken redirectURI : String) :
    Eff (Option UserToken × Option DataError) := do
  let slug := "v1/oauth2/token"
  let mut h : Header := []
  h := h.Set "Content-type" "application/x-www-form-urlencoded"
  h := h.Set "cache-control" "no-cache"

  let mut values : Values := []
  values := values.Set paramClientID d.clientID
  values := values.Set paramClientSecret d.clientSecret
  values := values.Set paramRedirectURI redirectURI
  if len authorizationCode > 0 then
    values := values.Set paramAuthorizationCode authorizationCode
    values := values.Set paramGrantType grantTypeAuthorizationCode
  else if len refreshToken > 0 then
    values := values.Set paramRefreshToken refreshToken
    values := values.Set paramGrantType grantTypeRefreshToken
  else
    return (none, some (NewDataError none ErrorMissingParam
      "authorization_code or refresh_token is missing"))

  let (statusCode, ret, err) ← d.c.MakeRequest ctx MethodPost slug none h (some values.Encode)
  if let some err := err then
    return (none, some err)

  if statusCode ≥ 200 ∧ statusCode < 300 then
    match ← Unmarshal rt.unmarshalUserToken ret with
    | .error err =>
      return (none, some (NewDataError (some err) ErrorJSON
        (Sprintf "Could not unmarshal response with code %d | %s"
          [.int statusCode, .str err.Error])))
    | .ok result =>
      let t := (← Now rt).Add (wrapInt64 (wrapInt64 (result.ExpiresIn - 5) * Second)) -- 5 second buffer
      return (some { result with ExpireTime := some t }, none)
  return (none, some (NewDataError
    (some (Errorf "Error from API: %d - %s" [.int statusCode, .str ret])) ErrorAPI
    (Sprintf "Status code was not in the 2xx range: %d" [.int statusCode])))

/-- The method `GetUser`. -/
def dexcomClient.GetUser (rt : Runtime) (d : dexcomClient) (ctx : Context)
    (authorizationCode redirectURI : String) : Eff (Option UserToken × Option DataError) :=
  d.getUser rt ctx authorizationCode "" redirectURI

/-- The method `RefreshUser`. -/
def dexcomClient.RefreshUser (rt : Runtime) (d : dexcomClient) (ctx : Context)
    (refreshToken redirectURI : String) : Eff (Option UserToken × Option DataError) :=
  d.getUser rt ctx "" refreshToken redirectURI

/-- The method `GetDevices`. -/
def dexcomClient.GetDevices (rt : Runtime) (d : dexcomClient) (ctx : Context) (accessToken : String)
    (startDate endDate : Time) : Eff (Option DeviceResponse × Option DataError) := do
  let slug := "/v1/users/self/devices"
  let mut h : Header := []
  h := h.Add "authorization" (Sprintf "Bearer %s" [.str accessToken])

  let mut q : Values := []
  q := q.Set paramStartDate (startDate.UTC.Format timeformat)
  q := q.Set paramEndDate (endDate.UTC.Format timeformat)

  let (statusCode, ret, err) ← d.c.MakeRequest ctx MethodGet slug (some q) h none
  if let some err := err then
    return (none, some err)

  if statusCode ≥ 200 ∧ statusCode < 300 then
    match ← Unmarshal rt.unmarshalDeviceResponse ret with
    | .error err =>
      return (none, some (NewDataError (some err) ErrorJSON
        (Sprintf "Could not unmarshal response with code %d | %s"
          [.int statusCode, .str err.Error])))
    | .ok result =>
      return (some result, none)
  return (none, some (NewDataError
    (some (Errorf "Error from API: %d - %s" [.int statusCode, .str ret])) ErrorAPI
    (Sprintf "Status code was not in the 2xx range: %d" [.int statusCode])))

/-- The method `GetEGVs`. -/
def dexcomClient.GetEGVs (rt : Runtime) (d : dexcomClient) (ctx : Context) (accessToken : String)
    (startDate endDate : Time) : Eff (Option EGVResponse × Option DataError) := do
  let slug := "/v1/users/self/egvs"
  let mut h : Header := []
  h := h.Add "authorization" (Sprintf "Bearer %s" [.str accessToken])

  let mut q : Values := []
  q := q.Set paramStartDate (startDate.UTC.Format timeformat)
  q := q.Set paramEndDate (endDate.UTC.Format timeformat)

  let (statusCode, ret, err) ← d.c.MakeRequest ctx MethodGet slug (some q) h none
  if let some err := err then
    return (none, some err)

  if statusCode ≥ 200 ∧ statusCode < 300 then
    match ← Unmarshal rt.unmarshalEGVResponse ret with
    | .error err =>
      return (none, some (NewDataError (some err) ErrorJSON
        (Sprintf "Could not unmarshal response with code %d | %s"
          [.int statusCode, .str err.Error])))
    | .ok result =>
      return (some result, none)
  return (none, some (NewDataError
    (some (Errorf "Error from API: %d - %s" [.int statusCode, .str ret])) ErrorAPI
    (Sprintf "Status code was not in the 2xx range: %d" [.int statusCode])))

/-- The method `GetEvents`. -/
def dexcomClient.GetEvents (rt : Runtime) (d : dexcomClient) (ctx : Context) (accessToken : String)
    (startDate endDate : Time) : Eff (Option EventResponse × Option DataError) := do
  let slug := "/v1/users/self/events"
  let mut h : Header := []
  h := h.Add "authorization" (Sprintf "Bearer %s" [.str accessToken])

  let mut q : Values := []
  q := q.Set paramStartDate (startDate.UTC.Format timeformat)
  q := q.Set paramEndDate (endDate.UTC.Format timeformat)

  let (statusCode, ret, err) ← d.c.MakeRequest ctx MethodGet slug (some q) h none
  if let some err := err then
    return (none, some err)

  if statusCode ≥ 200 ∧ statusCode < 300 then
    match ← Unmarshal rt.unmarshalEventResponse ret with
    | .error err =>
      return (none, some (NewDataError (some err) ErrorJSON
        (Sprintf "Could not unmarshal response with code %d | %s"
          [.int statusCode, .str err.Error])))
    | .ok result =>
      return (some result, none)
  return (none, some (NewDataError
    (some (Errorf "Error from API: %d - %s" [.int statusCode, .str ret])) ErrorAPI
    (Sprintf "Status code was not in the 2xx range: %d" [.int statusCode])))

/-- The method `GetStatistics`. -/
def dexcomClient.GetStatistics (rt : Runtime) (d : dexcomClient) (ctx : Context) (accessToken : String)
    (startDate endDate : Time)
    (stats : Stats) : Eff (Option Statistics × Option DataError) := do
  let slug := "/v1/users/self/statistics"
  let mut h : Header := []
  h := h.Add "authorization" (Sprintf "Bearer %s" [.str accessToken])

  let mut q : Values := []
  q := q.Set paramStartDate (startDate.UTC.Format timeformat)
  q := q.Set paramEndDate (endDate.UTC.Format timeformat)

  let (body, err) ← ObjectToJSONReader rt stats
  if let some err := err then
    return (none, some err)

  let (statusCode, ret, err) ← d.c.MakeRequest ctx MethodPost slug (some q) h body
  if let some err := err then
    return (none, some err)

  if statusCode ≥ 200 ∧ statusCode < 300 then
    match ← Unmarshal rt.unmarshalStatistics ret with
    | .error err =>
      return (none, some (NewDataError (some err) ErrorJSON
        (Sprintf "Could not unmarshal response with code %d | %s"
          [.int statusCode, .str err.Error])))
    | .ok result =>
      return (some result, none)
  return (none, some (NewDataError
    (some (Errorf "Error from API: %d - %s" [.int statusCode, .str ret])) ErrorAPI
    (Sprintf "Status code was not in the 2xx range: %d" [.int statusCode])))

/-! ## Reading a trace -/

/-- The requests handed to `MakeRequest` in a trace, in order. -/
def requestsOf : List Call → List Request
  | [] => []
  | Call.MakeRequest r :: rest => r :: requestsOf rest
  | _ :: rest => requestsOf rest

/-- The texts handed to `json.Unmarshal` in a trace, in order. -/
def decodedOf : List Call → List String
  | [] => []
  | Call.Unmarshal data :: rest => data :: decodedOf rest
  | _ :: rest => decodedOf rest

/-- The number of readings of the clock in a trace. -/
def clockReadsOf : List Call → Nat
  | [] => 0
  | Call.Now :: rest => clockReadsOf rest + 1
  | _ :: rest => clockReadsOf rest

/-! ## The test fixtures of client_test.go -/

/-- The transport of `testClient` for a handler that answers every request
with the given status code and body. -/
def testServer (statusCode : Int) (body : String) : BaseClient :=
  { transport := fun _ => (statusCode, body, none) }

/-- The transport of `testClient` when the timeout elapses before the handler
answers: the transport's own error, no status and no body. -/
def timeoutServer (e : DataError) : BaseClient :=
  { transport := fun _ => (0, "", some e) }

/-- The client that `testClient` builds around a transport. -/
def testClient (c : BaseClient) : dexcomClient :=
  { c := c, clientID := "123", clientSecret := "abc" }

/-- The body of the "base path" handlers of `TestUnit_GetUser` and `TestUnit_RefreshUser`. -/
def testUserTokenBody : String :=
  "\x7b\"access_token\":\"access\", \"expires_in\":600, \"token_type\":\"Bearer\", " ++
  "\"refresh_token\":\"refresh\"\x7d"

/-- The token that `testUserTokenBody` denotes. -/
def testUserToken : UserToken :=
  { AccessToken := "access", RefreshToken := "refresh", ExpiresIn := 600, TokenType := "Bearer",
    ExpireTime := none }

/-- The body of the "base path" handler of `TestUnit_GetEvents`. -/
def testEventsBody : String :=
  "\x7b\"events\": [\x7b\"systemTime\": \"2017-06-16T19:45:00\",\"displayTime\": " ++
  "\"2017-06-16T11:45:00\",\"eventType\": \"exercise\",\"eventSubType\": \"medium\"," ++
  "\"value\": 42,\"unit\": \"minutes\"\x7d]\x7d"

/-- The events that `testEventsBody` denotes (42 is 0x4045000000000000). -/
def testEvents : EventResponse :=
  { Events := [{ SystemTime := "2017-06-16T19:45:00", DisplayTime := "2017-06-16T11:45:00",
                 EventType := "exercise", EventSubType := "medium",
                 Value := { bits := 0x4045000000000000 }, Unit := "minutes" }] }

/-- The body of the "base path" handler of `TestUnit_GetStatistics`. -/
def testStatisticsBody : String :=
  "\x7b\"hypoglycemiaRisk\": \"minimal\",\"min\": 39,\"max\": 287,\"mean\": 131.20452051788453," ++
  "\"median\": 121,\"variance\": 1836.660387728187,\"stdDev\": 42.85627594329898," ++
  "\"sum\": 597899,\"q1\": 100,\"q2\": 121,\"q3\": 155," ++
  "\"utilizationPercent\": 98.89322916666666,\"meanDailyCalibrations\": 2,\"nDays\": 16," ++
  "\"nValues\": 4557,\"nBelowRange\": 185,\"nWithinRange\": 3605,\"nAboveRange\": 767," ++
  "\"percentBelowRange\": 4.0596883914856265,\"percentWithinRange\": 79.10906298003071," ++
  "\"percentAboveRange\": 16.831248628483653\x7d"

/-- The statistics that `testStatisticsBody` denotes, the `expectedResponse` of
the test; the numbers are given by their binary64 bit patterns. -/
def testStatistics : Statistics :=
  { HypoglycemiaRisk := "minimal",
    Min := { bits := 0x4043800000000000 },
    Max := { bits := 0x4071f00000000000 },
    Mean := { bits := 0x4060668b6e9cf59a },
    Median := { bits := 0x405e400000000000 },
    Variance := { bits := 0x409cb2a43cae3cf9 },
    StdDev := { bits := 0x40456d9a733a690c },
    Sum := { bits := 0x41223f1600000000 },
    Q1 := { bits := 0x4059000000000000 },
    Q2 := { bits := 0x405e400000000000 },
    Q3 := { bits := 0x4063600000000000 },
    UtilizationPercent := { bits := 0x4058b92aaaaaaaaa },
    MeanDailyCalibrations := { bits := 0x4000000000000000 },
    NDays := 16, NValues := 4557, NBelowRange := 185, NWithinRange := 3605, NAboveRange := 767,
    PercentBelowRange := { bits := 0x40103d1ef42586c5 },
    PercentWithinRange := { bits := 0x4053c6fae34b1beb },
    PercentAboveRange := { bits := 0x4030d4ccb5ca2ea1 } }

/-- The body of the "base path" handler of `TestUnit_GetDevices`. -/
def testDevicesBody : String :=
  "\x7b\"devices\": [\x7b\"model\": \"G5 Mobile App\",\"lastUploadDate\": " ++
  "\"2016-08-15T00:00:00\",\"alertSettings\": [\x7b\"alertName\": \"high\",\"value\": 200," ++
  "\"unit\": \"mg/dL\",\"snooze\": 30,\"delay\": 0,\"enabled\": true,\"systemTime\": " ++
  "\"2016-08-15T00:00:00\",\"displayTime\": \"2016-08-15T00:00:00\"\x7d]\x7d]\x7d"

/-- The devices that `testDevicesBody` denotes (200 is 0x4069000000000000); the
unit is the body's `mg/dL`. -/
def testDevices : DeviceResponse :=
  { Devices := [{ Model := "G5 Mobile App", LastUploadDate := "2016-08-15T00:00:00",
                  AlertSettings := [{ AlertName := "high",
                                      Value := { bits := 0x4069000000000000 },
                                      Unit := "mg/dL", Snooze := 30, Delay := 0, Enabled := true,
                                      SystemTime := "2016-08-15T00:00:00",
                                      DisplayTime := "2016-08-15T00:00:00" }] }] }

/-- The body of the "base path" handler of `TestUnit_GetEGVs`. -/
def testEGVsBody : String :=
  "\x7b\"unit\": \"mg/dL\",\"rateUnit\": \"mg/dL/min\",\"egvs\": [\x7b\"systemTime\": " ++
  "\"2017-06-16T15:40:00\",\"displayTime\": \"2017-06-16T07:40:00\",\"value\": 119," ++
  "\"status\": null,\"trend\": \"fortyFiveDown\",\"trendRate\": -1.3\x7d]\x7d"

/-- The readings that `testEGVsBody` denotes, the `expectedResponse` of the
test (119 is 0x405dc00000000000, -1.3 is 0xbff4cccccccccccd). -/
def testEGVs : EGVResponse :=
  { Unit := "mg/dL", RateUnit := "mg/dL/min",
    EGVs := [{ SystemTime := "2017-06-16T15:40:00", DisplayTime := "2017-06-16T07:40:00",
               Value := { bits := 0x405dc00000000000 }, Status := none,
               Trend := some "fortyFiveDown",
               TrendRate := some { bits := 0xbff4cccccccccccd } }] }

/-- A decoder that knows one text: it returns the value that text denotes,
fails on the empty text as `json.Unmarshal` does, and fails on the other texts
of the tests, which are not JSON (`invalid_request`, `foo`). -/
def decodeOnly {α : Type} (body : String) (value : α) (data : String) : Except GoError α :=
  if data = body then .ok value
  else if data = "" then .error { text := "unexpected end of JSON input" }
  else .error { text := "invalid character looking for beginning of value" }

/-- The stats argument of `TestUnit_GetStatistics`, with the clock reading `t`
for its `time.Now()`. -/
def testStats (t : Time) : Stats :=
  [("foo", [{ Name := "foo", StartTime := t, EndTime := t,
              EGVRange := { Min := { bits := 0 }, Max := { bits := 0x4059000000000000 } } }])]

/-- The library functions as the tests see them: `json.Unmarshal` on the
bodies of the tests, a serialiser that succeeds with the given text, and a
clock that reads `t`. -/
def testRuntime (t : Time) (statsJSON : String) : Runtime :=
  { unmarshalUserToken := decodeOnly testUserTokenBody testUserToken
    unmarshalDeviceResponse := decodeOnly testDevicesBody testDevices
    unmarshalEGVResponse := decodeOnly testEGVsBody testEGVs
    unmarshalEventResponse := decodeOnly testEventsBody testEvents
    unmarshalStatistics := decodeOnly testStatisticsBody testStatistics
    objectToJSONReader := fun _ => (some statsJSON, none)
    now := t }

/-- The clock reading 2017-06-16T19:45:00Z, in a zone two hours east of UTC. -/
def testTime : Time :=
  { unixNano := 1497642300000000000, loc := { name := "CEST", lookup := fun _ => 7200 } }

/-- Go `context.Background()`. -/
def background : Context := { id := 0 }

/-- The error with which the transport reports that the timeout elapsed. The
text of its code is the transport's `client.ErrorRequestError`, which is not
part of this repository; the text here stands for it. -/
def testTimeoutError : DataError :=
  { inner := some { text := "context deadline exceeded" },
    code := "ERROR_REQUEST_ERROR",
    msg := "Could not make the request" }

/-- A token response as in the tests, but with a lifetime of 9223372042
seconds (some 292 years). -/
def longLivedTokenBody : String :=
  "\x7b\"access_token\":\"access\", \"expires_in\":9223372042, \"token_type\":\"Bearer\", " ++
  "\"refresh_token\":\"refresh\"\x7d"

/-- The token that `longLivedTokenBody` denotes. -/
def longLivedToken : UserToken :=
  { AccessToken := "access", RefreshToken := "refresh", ExpiresIn := 9223372042,
    TokenType := "Bearer", ExpireTime := none }

/-- The library functions of `testRuntime`, with a decoder for `longLivedTokenBody`. -/
def longLivedRuntime (t : Time) : Runtime :=
  { testRuntime t "" with unmarshalUserToken := decodeOnly longLivedTokenBody longLivedToken }

/-! ## The outcome of an operation, in closed form -/

/-- What an operation makes of the transport's reply to its request `r`: the
returned pair and the calls made, for a result type decoded by `decode`. -/
def interpretReply {α : Type} (decode : String → Except GoError α) (r : Request)
    (reply : Int × String × Option DataError) : (Option α × Option DataError) × List Call :=
  match reply.2.2 with
  | some err => ((none, some err), [Call.MakeRequest r])
  | none =>
    if 200 ≤ reply.1 ∧ reply.1 < 300 then
      match decode reply.2.1 with
      | .error err =>
        ((none, some (NewDataError (some err) ErrorJSON
          ("Could not unmarshal response with code " ++ toString reply.1 ++ " | " ++ err.text))),
          [Call.MakeRequest r, Call.Unmarshal reply.2.1])
      | .ok result => ((some result, none), [Call.MakeRequest r, Call.Unmarshal reply.2.1])
    else
      ((none, some (NewDataError
        (some { text := "Error from API: " ++ toString reply.1 ++ " - " ++ reply.2.1 }) ErrorAPI
        ("Status code was not in the 2xx range: " ++ toString reply.1))), [Call.MakeRequest r])

/-- The expiry stamp of the token exchange on a decoded token, with the
reading of the clock added to the trace. -/
def stampExpiry (rt : Runtime) (o : (Option UserToken × Option DataError) × List Call) :
    (Option UserToken × Option DataError) × List Call :=
  match o.1.1 with
  | some result =>
    ((some { result with
        ExpireTime := some (rt.now.Add (wrapInt64 (wrapInt64 (result.ExpiresIn - 5) * Second))) },
      o.1.2), o.2 ++ [Call.Now])
  | none => o

/-- The request of a data operation. -/
def dataRequest (ctx : Context) (method slug accessToken : String) (startDate endDate : Time)
    (body : Option String) : Request :=
  { ctx := ctx, method := method, slug := slug,
    query := some [("startDate", [startDate.UTC.Format timeformat]),
                   ("endDate", [endDate.UTC.Format timeformat])],
    headers := [("Authorization", ["Bearer " ++ accessToken])],
    body := body }

/-- The request of a token exchange with the given form. -/
def tokenRequest (ctx : Context) (form : Values) : Request :=
  { ctx := ctx, method := "POST", slug := "v1/oauth2/token", query := none,
    headers := [("Content-Type", ["application/x-www-form-urlencoded"]),
                ("Cache-Control", ["no-cache"])],
    body := some form.Encode }

/-- The form of `GetUser`. -/
def codeForm (d : dexcomClient) (authorizationCode redirectURI : String) : Values :=
  [("client_id", [d.clientID]), ("client_secret", [d.clientSecret]),
   ("redirect_uri", [redirectURI]), ("code", [authorizationCode]),
   ("grant_type", ["authorization_code"])]

/-- The form of `RefreshUser`. -/
def refreshForm (d : dexcomClient) (refreshToken redirectURI : String) : Values :=
  [("client_id", [d.clientID]), ("client_secret", [d.clientSecret]),
   ("redirect_uri", [redirectURI]), ("refresh_token", [refreshToken]),
   ("grant_type", ["refresh_token"])]

/-- An outcome whose trace starts with one more call. -/
def prependCall {α : Type} (c : Call) (o : α × List Call) : α × List Call :=
  (o.1, c :: o.2)

/-- The operation with outcome `o` handed exactly one request to the transport
of `d`, and the transport returned `reply` for it. -/
def repliedWith {α : Type} (d : dexcomClient) (o : α × List Call)
    (reply : Int × String × Option DataError) : Prop :=
  ∃ r, requestsOf o.2 = [r] ∧ d.c.transport r = reply

/-- The error of the non-2xx branch for status code `s` and response `body`. -/
def apiError (s : Int) (body : String) : DataError :=
  { inner := some { text := "Error from API: " ++ toString s ++ " - " ++ body },
    code := "ERROR_API",
    msg := "Status code was not in the 2xx range: " ++ toString s }

/-- The error of the decode-failure branch for status code `s` and the
decoder's error `err`. -/
def jsonError (s : Int) (err : GoError) : DataError :=
  { inner := some err,
    code := "ERROR_JSON",
    msg := "Could not unmarshal response with code " ++ toString s ++ " | " ++ err.text }

/-- The error of the missing-parameter branch. -/
def missingParamError : DataError :=
  { inner := none,
    code := "ERROR_MISSING_PARAM",
    msg := "authorization_code or refresh_token is missing" }

/-- The calendar date (year, month, day) in UTC of the instant of a time; the
location of the time plays no part. -/
def utcDate (t : Time) : Int × Int × Int :=
  absDate (t.unixNano / 1000000000 + unixToInternal)

/-- The clock (hour, minute, second) in UTC of the instant of a time. -/
def utcClock (t : Time) : Int × Int × Int :=
  absClock (t.unixNano / 1000000000 + unixToInternal)

/-- The 19 characters `YYYY-MM-DDTHH:MM:SS` for a date and a clock: four
decimal digits of the year, two of every other field, the separators `-`, `T`
and `:`, and nothing else. -/
def isoSeconds (date clock : Int × Int × Int) : String :=
  String.mk
    [digitChar (date.1.toNat / 1000), digitChar (date.1.toNat / 100),
     digitChar (date.1.toNat / 10), digitChar date.1.toNat, '-',
     digitChar (date.2.1.toNat / 10), digitChar date.2.1.toNat, '-',
     digitChar (date.2.2.toNat / 10), digitChar date.2.2.toNat, 'T',
     digitChar (clock.1.toNat / 10), digitChar clock.1.toNat, ':',
     digitChar (clock.2.1.toNat / 10), digitChar clock.2.1.toNat, ':',
     digitChar (clock.2.2.toNat / 10), digitChar clock.2.2.toNat]

/-- The instant 10000-01-01T00:00:00Z, in UTC. -/
def year10000 : Time :=
  { unixNano := 253402300800000000000, loc := utcLoc }

/-- The query parameters `startDate` and `endDate`, one value each: the text
`YYYY-MM-DDTHH:MM:SS` of the UTC date and clock of the two instants. -/
def dateRangeQuery (startDate endDate : Time) : Option Values :=
  some [("startDate", [isoSeconds (utcDate startDate) (utcClock startDate)]),
        ("endDate", [isoSeconds (utcDate endDate) (utcClock endDate)])]

/-- The UTC calendar fields of a time are a year of at most four digits, a
month 1..12, a day 1..31, an hour 0..23, a minute and a second 0..59: each is
written in full by the digits of `isoSeconds`. -/
def fieldsFit (t : Time) : Prop :=
  (0 ≤ (utcDate t).1 ∧ (utcDate t).1 ≤ 9999)
  ∧ (1 ≤ (utcDate t).2.1 ∧ (utcDate t).2.1 ≤ 12)
  ∧ (1 ≤ (utcDate t).2.2 ∧ (utcDate t).2.2 ≤ 31)
  ∧ (0 ≤ (utcClock t).1 ∧ (utcClock t).1 ≤ 23)
  ∧ (0 ≤ (utcClock t).2.1 ∧ (utcClock t).2.1 ≤ 59)
  ∧ (0 ≤ (utcClock t).2.2 ∧ (utcClock t).2.2 ≤ 59)

/-- The instant of `testTime`, 2017-06-16T19:45:00Z, presented in UTC. -/
def testTimeUTC : Time :=
  { unixNano := 1497642300000000000, loc := utcLoc }

/-- The response interpreter of the specification (§4.2), one routine for every
result type: a transport failure is handed on unchanged; otherwise a status in
200..299 has the body decoded, a decode failure giving the JSON error with the
status and the decoder's text and a decode success the typed result; any other
status gives the API error with the status and the raw body. -/
def responseInterpreter {α : Type} (decode : String → Except GoError α)
    (reply : Int × String × Option DataError) : Option α × Option DataError :=
  match reply.2.2 with
  | some err => (none, some err)
  | none =>
    if 200 ≤ reply.1 ∧ reply.1 < 300 then
      match decode reply.2.1 with
      | .ok v => (some v, none)
      | .error err => (none, some (jsonError reply.1 err))
    else (none, some (apiError reply.1 reply.2.1))

/-- The one addition of the token exchange to the interpreter: on success the
expiry time is stamped on the token. -/
def withExpiry (rt : Runtime) (p : Option UserToken × Option DataError) :
    Option UserToken × Option DataError :=
  (p.1.map fun tok =>
    { tok with
      ExpireTime := some (rt.now.Add (wrapInt64 (wrapInt64 (tok.ExpiresIn - 5) * Second))) },
   p.2)

/-- No retry: at most one request is handed to the transport; after a transport
error or a status outside 200..299 the request is the last call made, and
after a decode failure the decode attempt is. -/
def noRetry {α : Type} (d : dexcomClient) (decode : String → Except GoError α)
    (o : (Option α × Option DataError) × List Call) : Prop :=
  (requestsOf o.2).length ≤ 1
  ∧ ∀ s body err, repliedWith d o (s, body, err) →
      ((err ≠ none ∨ s < 200 ∨ s ≥ 300) → ∃ r, o.2.getLast? = some (Call.MakeRequest r))
      ∧ (err = none → 200 ≤ s → s < 300 → ∀ e, decode body = .error e →
          o.2.getLast? = some (Call.Unmarshal body))

/-- The returned tokens of two token exchanges agree, and carry the expiry time
computed from the clock and the decoded `expires_in` alone. -/
def sameToken (rt : Runtime) (v : UserToken)
    (p q : Option UserToken × Option DataError) : Prop :=
  p = q ∧ ∃ tok, p = (some tok, none)
    ∧ tok.AccessToken = v.AccessToken ∧ tok.RefreshToken = v.RefreshToken
    ∧ tok.ExpiresIn = v.ExpiresIn ∧ tok.TokenType = v.TokenType
    ∧ tok.ExpireTime = some (rt.now.Add (wrapInt64 (wrapInt64 (v.ExpiresIn - 5) * Second)))

/-- The instant 2001-09-09T01:46:40Z, in UTC: an `expire_time` a server might send. -/
def serverExpireTime : Time :=
  { unixNano := 1000000000000000000, loc := utcLoc }

/-- A token response as in the tests with an `expire_time` member added. -/
def stampedTokenBody : String :=
  "\x7b\"access_token\":\"access\", \"expires_in\":600, \"token_type\":\"Bearer\", " ++
  "\"refresh_token\":\"refresh\", \"expire_time\":\"2001-09-09T01:46:40Z\"\x7d"

/-- The token that `stampedTokenBody` denotes. -/
def stampedToken : UserToken :=
  { testUserToken with ExpireTime := some serverExpireTime }

/-- The library functions of `testRuntime`, with a decoder that knows both
`testUserTokenBody` and `stampedTokenBody`. -/
def stampedRuntime (t : Time) : Runtime :=
  { testRuntime t "" with
    unmarshalUserToken := fun data =>
      if data = stampedTokenBody then .ok stampedToken
      else decodeOnly testUserTokenBody testUserToken data }

/-- A decoded token with the expiry time that the token exchange stamps on it. -/
def restamped (rt : Runtime) (v : UserToken) : UserToken :=
  { v with ExpireTime := some (rt.now.Add (wrapInt64 (wrapInt64 (v.ExpiresIn - 5) * Second))) }

/-- The request of `GetUser`. -/
def userRequest (d : dexcomClient) (ctx : Context) (authorizationCode redirectURI : String) :
    Request :=
  tokenRequest ctx (codeForm d authorizationCode redirectURI)

/-- The request of `RefreshUser`. -/
def refreshRequest (d : dexcomClient) (ctx : Context) (refreshToken redirectURI : String) :
    Request :=
  tokenRequest ctx (refreshForm d refreshToken redirectURI)

/-- The request of `GetDevices`. -/
def devicesRequest (ctx : Context) (accessToken : String) (startDate endDate : Time) : Request :=
  dataRequest ctx "GET" "/v1/users/self/devices" accessToken startDate endDate none

/-- The request of `GetEGVs`. -/
def egvsRequest (ctx : Context) (accessToken : String) (startDate endDate : Time) : Request :=
  dataRequest ctx "GET" "/v1/users/self/egvs" accessToken startDate endDate none

/-- The request of `GetEvents`. -/
def eventsRequest (ctx : Context) (accessToken : String) (startDate endDate : Time) : Request :=
  dataRequest ctx "GET" "/v1/users/self/events" accessToken startDate endDate none

/-- The request of `GetStatistics` when the serialiser returned `jsonBody`. -/
def statisticsRequest (ctx : Context) (accessToken : String) (startDate endDate : Time)
    (jsonBody : Option String) : Request :=
  dataRequest ctx "POST" "/v1/users/self/statistics" accessToken startDate endDate jsonBody

/-- The transport of `d` answers the request `r` with `reply`: what
`MakeRequest` returns when it is called with the arguments `r`. -/
def answers (d : dexcomClient) (r : Request) (reply : Int × String × Option DataError) : Prop :=
  d.c.transport r = reply

/-- The queries of the requests of an outcome, in order. -/
def queriesOf {α : Type} (o : α × List Call) : List (Option Values) :=
  (requestsOf o.2).map Request.query

/-- The query with the two parameters as the code formats them. -/
def formattedQuery (startDate endDate : Time) : Option Values :=
  some [("startDate", [startDate.UTC.Format timeformat]),
        ("endDate", [endDate.UTC.Format timeformat])]

/-- The instants from 0000-01-01T00:00:00Z up to, and not including,
10000-01-01T00:00:00Z: the years of four digits. -/
def fourDigitYear (t : Time) : Prop :=
  -62167219200000000000 ≤ t.unixNano ∧ t.unixNano < 253402300800000000000

/-- The returned token of a successful exchange on a decoded token `v` when
the clock reads `rt.now`: a token whose expiry time is set and which, when
`n - 5` seconds for `n = v.ExpiresIn` fit the 64-bit nanoseconds of a
`time.Duration` (`-9223372031 ≤ n ≤ 9223372041`), expires at the reading of the
clock plus exactly `n - 5` seconds. -/
def expiryStamped (rt : Runtime) (v tok : UserToken) : Prop :=
  tok.ExpireTime ≠ none
  ∧ (-9223372031 ≤ v.ExpiresIn → v.ExpiresIn ≤ 9223372041 →
      tok.ExpireTime = some (rt.now.Add ((v.ExpiresIn - 5) * Second)))

/-! ## encoding/json on the types of types.go -/

/-- A JSON value. A number is given by the binary64 value that
`strconv.ParseFloat` reads from its literal, a string by its text, an object by
its members in the order in which they are written. -/
inductive JSON where
  | null
  | bool (b : Bool)
  | number (v : float64)
  | string (s : String)
  | array (elements : List JSON)
  | object (members : List (String × JSON))

/-- The fields of the struct `EGV`. -/
inductive EGVField where
  | SystemTime
  | DisplayTime
  | Value
  | Status
  | Trend
  | TrendRate
deriving DecidableEq, Repr

/-- The `json` tag of each field of `EGV` in types.go. -/
def EGVField.tag : EGVField → String
  | .SystemTime => "systemTime"
  | .DisplayTime => "displayTime"
  | .Value => "value"
  | .Status => "status"
  | .Trend => "trend"
  | .TrendRate => "trendRate"

/-- The fields of `EGV` in the order of their declaration. -/
def egvFields : List EGVField :=
  [.SystemTime, .DisplayTime, .Value, .Status, .Trend, .TrendRate]

/-- The case folding of `encoding/json` for one character of a member name, as
far as it can meet an ASCII tag: an ASCII lower-case letter folds to its
upper-case letter, and so do the long s (U+017F, to `S`) and the Kelvin sign
(U+212A, to `K`); no other character folds to an ASCII one. -/
def foldChar (c : Char) : Char :=
  if c.isLower then c.toUpper
  else if c = Char.ofNat 0x17F then 'S'
  else if c = Char.ofNat 0x212A then 'K'
  else c

/-- The folded form of a member name. -/
def foldName (s : String) : List Char := s.toList.map foldChar

/-- The field of `EGV` that a member name of an object is decoded into: the
field with exactly that tag, otherwise the first field whose tag is the name up
to case folding, otherwise none (the member is skipped). -/
def lookupField (key : String) : Option EGVField :=
  match egvFields.find? (fun f => f.tag == key) with
  | some f => some f
  | none => egvFields.find? (fun f => foldName f.tag == foldName key)

/-- The error of `json.Unmarshal` for a member whose value does not have the
type of its field. -/
def unmarshalTypeError (f : EGVField) : GoError :=
  { text := "json: cannot unmarshal value into Go struct field EGV." ++ f.tag }

/-- The decoding of one member of an object into an `EGV`. A string or number
field takes a value of its type and is left as it is by `null`; a pointer
field (`*string`, `*float64`) is set to nil by `null` and to a pointer to the
value by a value of its type; a value of another type is an error (with which
`json.Unmarshal` ends, after the other members; its caller drops the result). -/
def EGV.store (e : EGV) (key : String) (v : JSON) : Except GoError EGV :=
  match lookupField key, v with
  | none, _ => .ok e
  | some .SystemTime, .string s => .ok { e with SystemTime := s }
  | some .SystemTime, .null => .ok e
  | some .DisplayTime, .string s => .ok { e with DisplayTime := s }
  | some .DisplayTime, .null => .ok e
  | some .Value, .number x => .ok { e with Value := x }
  | some .Value, .null => .ok e
  | some .Status, .string s => .ok { e with Status := some s }
  | some .Status, .null => .ok { e with Status := none }
  | some .Trend, .string s => .ok { e with Trend := some s }
  | some .Trend, .null => .ok { e with Trend := none }
  | some .TrendRate, .number x => .ok { e with TrendRate := some x }
  | some .TrendRate, .null => .ok { e with TrendRate := none }
  | some f, _ => .error (unmarshalTypeError f)

/-- The decoding of the members of an object into an `EGV`, in their order. -/
def decodeMembers : EGV → List (String × JSON) → Except GoError EGV
  | e, [] => .ok e
  | e, m :: rest =>
    match e.store m.1 m.2 with
    | .ok e1 => decodeMembers e1 rest
    | .error err => .error err

/-- The zero value of `EGV`, what `new(EGV)` points to. -/
def zeroEGV : EGV :=
  { SystemTime := "", DisplayTime := "", Value := { bits := 0 }, Status := none, Trend := none,
    TrendRate := none }

/-- Go `json.Unmarshal` of a JSON value into a new `EGV`: an object is decoded
member by member, `null` leaves the zero value, any other value is an error. -/
def unmarshalEGV : JSON → Except GoError EGV
  | .object members => decodeMembers zeroEGV members
  | .null => .ok zeroEGV
  | _ => .error { text := "json: cannot unmarshal value into Go value of type dexcom.EGV" }

/-- The members of the reading of `testEGVsBody` before its `status`. -/
def testEGVHead : List (String × JSON) :=
  [("systemTime", .string "2017-06-16T15:40:00"), ("displayTime", .string "2017-06-16T07:40:00"),
   ("value", .number { bits := 0x405dc00000000000 })]

/-- The members of the reading of `testEGVsBody` after its `status`. -/
def testEGVTail : List (String × JSON) :=
  [("trend", .string "fortyFiveDown"), ("trendRate", .number { bits := 0xbff4cccccccccccd })]

/-- The reading of the test, the `expectedResponse` of `TestUnit_GetEGVs`. -/
def testEGV : EGV :=
  { SystemTime := "2017-06-16T15:40:00", DisplayTime := "2017-06-16T07:40:00",
    Value := { bits := 0x405dc00000000000 }, Status := none, Trend := some "fortyFiveDown",
    TrendRate := some { bits := 0xbff4cccccccccccd } }

/-- No member of the list is decoded into the field `f`. -/
def otherMembers (f : EGVField) (ms : List (String × JSON)) : Prop :=
  ∀ m ∈ ms, lookupField m.1 ≠ some f

/-- The names of the members of an object, in order; no names for another value. -/
def JSON.keys : JSON → List String
  | .object members => members.map Prod.fst
  | _ => []

/-- Go `json.Marshal` of a `MinMax`: an object with the members of its `json`
tags in types.go, in the order of its fields. -/
def MinMax.toJSON (m : MinMax) : JSON :=
  .object [("min", .number m.Min), ("max", .number m.Max)]

/-- Go `json.Marshal` of a `StatRequest`: an object with the members of its
`json` tags in types.go, in the order of its fields; a `time.Time` is written
as the string `timeText` gives for it (its RFC 3339 text). -/
def StatRequest.toJSON (timeText : Time → String) (q : StatRequest) : JSON :=
  .object [("name", .string q.Name), ("startTime", .string (timeText q.StartTime)),
           ("endTime", .string (timeText q.EndTime)), ("egvrange", q.EGVRange.toJSON)]

/-- Map lookup `stats[key]`. -/
def Stats.get (stats : Stats) (key : String) : List StatRequest :=
  match stats with
  | [] => []
  | (k, qs) :: rest => if k = key then qs else Stats.get rest key

/-- Go `json.Marshal` of a `map[string][]StatRequest`: an object with one member
for each key, the keys sorted, the value the array of the requests. (A nil
slice, which Go writes as `null`, is the empty list here.) -/
def marshalStats (timeText : Time → String) (stats : Stats) : JSON :=
  .object ((sortStrings (stats.map Prod.fst)).map fun k =>
    (k, .array ((Stats.get stats k).map (StatRequest.toJSON timeText))))

/-- Modelled from the spec: `client.ObjectToJSONReader`, of the package
go-client, is not in this repository; by the specification (§4.1, §6) it
serialises the mapping as JSON, group name to list of
`{name, startTime, endTime, egvrange: {min, max}}`. The serialiser of `rt` does
so for `stats` when it returns, without error, the text that `render` writes
for `marshalStats stats`. -/
def serialisesAsJSON (rt : Runtime) (render : JSON → String) (timeText : Time → String)
    (stats : Stats) : Prop :=
  rt.objectToJSONReader stats = (some (render (marshalStats timeText stats)), none)

/-- The outcome of `GetStatistics` by what the serialiser returned, `body` and
`err`: with an error `e`, no result and `e`, and nothing handed to the
transport; without, one request whose body is `body`. -/
def serialisedOutcome (stats : Stats) (body : Option String) (err : Option DataError)
    (o : (Option Statistics × Option DataError) × List Call) : Prop :=
  (∀ e, err = some e →
    o = ((none, some e), [Call.ObjectToJSONReader stats]) ∧ requestsOf o.2 = [])
  ∧ (err = none → ∃ r, requestsOf o.2 = [r] ∧ r.body = body)

/-- A serialiser that fails on every mapping with the error `e`. -/
def failingRuntime (t : Time) (e : DataError) : Runtime :=
  { testRuntime t "" with objectToJSONReader := fun _ => (none, some e) }

/-- The error of a serialiser that meets a time it cannot write. -/
def testMarshalError : DataError :=
  { inner := some { text := "Time.MarshalJSON: year outside of range [0,9999]" },
    code := "ERROR_MARSHALLING",
    msg := "Could not serialise the object" }

/-! ## Lemmas on the embedding -/

theorem Eff.bind_apply {α β : Type} (m : Eff α) (f : α → Eff β) (log : List Call) :
    (m >>= f) log = f (m log).1 (m log).2 := rfl

theorem Eff.pure_apply {α : Type} (a : α) (log : List Call) :
    (Pure.pure a : Eff α) log = (a, log) := rfl

theorem utf8ByteSize_go_pos (c : Char) (cs : List Char) :
    0 < String.utf8ByteSize.go (c :: cs) := by
  have hc := Char.utf8Size_pos c
  simp only [String.utf8ByteSize.go]
  omega

/-- A string has positive length exactly when it is not the empty string. -/
theorem len_pos_iff (s : String) : len s > 0 ↔ s ≠ "" := by
  obtain ⟨cs⟩ := s
  cases cs with
  | nil => simp [len, String.utf8ByteSize, String.utf8ByteSize.go]
  | cons c cs =>
    have h := utf8ByteSize_go_pos c cs
    have hne : (String.mk (c :: cs)) ≠ "" := by
      intro h0
      have := congrArg String.data h0
      simp at this
    simp only [len, String.utf8ByteSize, gt_iff_lt, ne_eq]
    exact ⟨fun _ => hne, fun _ => h⟩

theorem Sprintf_unmarshal (n : Int) (s : String) :
    Sprintf "Could not unmarshal response with code %d | %s" [.int n, .str s]
      = "Could not unmarshal response with code " ++ toString n ++ " | " ++ s := by
  simp only [Sprintf, Sprintf.go, String.toList]
  apply String.ext
  simp [String.data_append, String.data_push]

theorem Sprintf_status (n : Int) :
    Sprintf "Status code was not in the 2xx range: %d" [.int n]
      = "Status code was not in the 2xx range: " ++ toString n := rfl

theorem Sprintf_apiError (n : Int) (s : String) :
    Sprintf "Error from API: %d - %s" [.int n, .str s]
      = "Error from API: " ++ toString n ++ " - " ++ s := by
  simp only [Sprintf, Sprintf.go, String.toList]
  apply String.ext
  simp [String.data_append, String.data_push]

theorem Sprintf_bearer (s : String) : Sprintf "Bearer %s" [.str s] = "Bearer " ++ s := rfl

theorem GetDevices_run (rt : Runtime) (d : dexcomClient) (ctx : Context) (accessToken : String)
    (startDate endDate : Time) :
    (d.GetDevices rt ctx accessToken startDate endDate).run =
      (interpretReply rt.unmarshalDeviceResponse
        (dataRequest ctx "GET" "/v1/users/self/devices" accessToken startDate endDate none)
        (d.c.transport
          (dataRequest ctx "GET" "/v1/users/self/devices" accessToken startDate endDate none))) := by
  have hr : ({ ctx := ctx, method := MethodGet, slug := "/v1/users/self/devices",
               query := some ((Values.Set [] paramStartDate (startDate.UTC.Format timeformat)).Set
                 paramEndDate (endDate.UTC.Format timeformat)),
               headers := Header.Add [] "authorization" (Sprintf "Bearer %s" [FmtArg.str accessToken]),
               body := none } : Request) =
      dataRequest ctx "GET" "/v1/users/self/devices" accessToken startDate endDate none := rfl
  unfold dexcomClient.GetDevices
  simp only [Eff.run, Eff.bind_apply, Eff.pure_apply, BaseClient.MakeRequest, hr]
  generalize d.c.transport _ = reply
  obtain ⟨s, ret, err⟩ := reply
  cases err with
  | some e => simp [interpretReply, Eff.pure_apply]
  | none =>
    simp only [interpretReply]
    by_cases h : 200 ≤ s ∧ s < 300
    · simp only [h, ge_iff_le, and_self, if_true, Eff.bind_apply, Eff.pure_apply, Unmarshal]
      cases hd : rt.unmarshalDeviceResponse ret with
      | error e => simp [Eff.pure_apply, Sprintf_unmarshal, GoError.Error]
      | ok v => simp [Eff.pure_apply]
    · simp [h, Eff.bind_apply, Eff.pure_apply, Sprintf_status, Sprintf_apiError, Errorf]

theorem GetEGVs_run (rt : Runtime) (d : dexcomClient) (ctx : Context) (accessToken : String)
    (startDate endDate : Time) :
    (d.GetEGVs rt ctx accessToken startDate endDate).run =
      (interpretReply rt.unmarshalEGVResponse
        (dataRequest ctx "GET" "/v1/users/self/egvs" accessToken startDate endDate none)
        (d.c.transport
          (dataRequest ctx "GET" "/v1/users/self/egvs" accessToken startDate endDate none))) := by
  have hr : ({ ctx := ctx, method := MethodGet, slug := "/v1/users/self/egvs",
               query := some ((Values.Set [] paramStartDate (startDate.UTC.Format timeformat)).Set
                 paramEndDate (endDate.UTC.Format timeformat)),
               headers := Header.Add [] "authorization" (Sprintf "Bearer %s" [FmtArg.str accessToken]),
               body := none } : Request) =
      dataRequest ctx "GET" "/v1/users/self/egvs" accessToken startDate endDate none := rfl
  unfold dexcomClient.GetEGVs
  simp only [Eff.run, Eff.bind_apply, Eff.pure_apply, BaseClient.MakeRequest, hr]
  generalize d.c.transport _ = reply
  obtain ⟨s, ret, err⟩ := reply
  cases err with
  | some e => simp [interpretReply, Eff.pure_apply]
  | none =>
    simp only [interpretReply]
    by_cases h : 200 ≤ s ∧ s < 300
    · simp only [h, ge_iff_le, and_self, if_true, Eff.bind_apply, Eff.pure_apply, Unmarshal]
      cases hd : rt.unmarshalEGVResponse ret with
      | error e => simp [Eff.pure_apply, Sprintf_unmarshal, GoError.Error]
      | ok v => simp [Eff.pure_apply]
    · simp [h, Eff.bind_apply, Eff.pure_apply, Sprintf_status, Sprintf_apiError, Errorf]

theorem GetEvents_run (rt : Runtime) (d : dexcomClient) (ctx : Context) (accessToken : String)
    (startDate endDate : Time) :
    (d.GetEvents rt ctx accessToken startDate endDate).run =
      (interpretReply rt.unmarshalEventResponse
        (dataRequest ctx "GET" "/v1/users/self/events" accessToken startDate endDate none)
        (d.c.transport
          (dataRequest ctx "GET" "/v1/users/self/events" accessToken startDate endDate none))) := by
  have hr : ({ ctx := ctx, method := MethodGet, slug := "/v1/users/self/events",
               query := some ((Values.Set [] paramStartDate (startDate.UTC.Format timeformat)).Set
                 paramEndDate (endDate.UTC.Format timeformat)),
               headers := Header.Add [] "authorization" (Sprintf "Bearer %s" [FmtArg.str accessToken]),
               body := none } : Request) =
      dataRequest ctx "GET" "/v1/users/self/events" accessToken startDate endDate none := rfl
  unfold dexcomClient.GetEvents
  simp only [Eff.run, Eff.bind_apply, Eff.pure_apply, BaseClient.MakeRequest, hr]
  generalize d.c.transport _ = reply
  obtain ⟨s, ret, err⟩ := reply
  cases err with
  | some e => simp [interpretReply, Eff.pure_apply]
  | none =>
    simp only [interpretReply]
    by_cases h : 200 ≤ s ∧ s < 300
    · simp only [h, ge_iff_le, and_self, if_true, Eff.bind_apply, Eff.pure_apply, Unmarshal]
      cases hd : rt.unmarshalEventResponse ret with
      | error e => simp [Eff.pure_apply, Sprintf_unmarshal, GoError.Error]
      | ok v => simp [Eff.pure_apply]
    · simp [h, Eff.bind_apply, Eff.pure_apply, Sprintf_status, Sprintf_apiError, Errorf]

theorem GetStatistics_run (rt : Runtime) (d : dexcomClient) (ctx : Context) (accessToken : String)
    (startDate endDate : Time) (stats : Stats)
    (body : Option String)
    (hbody : rt.objectToJSONReader stats = (body, none)) :
    (d.GetStatistics rt ctx accessToken startDate endDate stats).run =
      prependCall (Call.ObjectToJSONReader stats) (interpretReply rt.unmarshalStatistics
        (dataRequest ctx "POST" "/v1/users/self/statistics" accessToken startDate endDate body)
        (d.c.transport
          (dataRequest ctx "POST" "/v1/users/self/statistics" accessToken startDate endDate body))) := by
  have hr : ({ ctx := ctx, method := MethodPost, slug := "/v1/users/self/statistics",
               query := some ((Values.Set [] paramStartDate (startDate.UTC.Format timeformat)).Set
                 paramEndDate (endDate.UTC.Format timeformat)),
               headers := Header.Add [] "authorization" (Sprintf "Bearer %s" [FmtArg.str accessToken]),
               body := body } : Request) =
      dataRequest ctx "POST" "/v1/users/self/statistics" accessToken startDate endDate body := rfl
  unfold dexcomClient.GetStatistics
  simp only [Eff.run, Eff.bind_apply, Eff.pure_apply, BaseClient.MakeRequest, ObjectToJSONReader, hbody, List.nil_append, hr]
  generalize d.c.transport _ = reply
  obtain ⟨s, ret, err⟩ := reply
  cases err with
  | some e => simp [interpretReply, Eff.pure_apply, prependCall]
  | none =>
    simp only [interpretReply]
    by_cases h : 200 ≤ s ∧ s < 300
    · simp only [h, ge_iff_le, and_self, if_true, Eff.bind_apply, Eff.pure_apply, Unmarshal]
      cases hd : rt.unmarshalStatistics ret with
      | error e => simp [Eff.pure_apply, Sprintf_unmarshal, GoError.Error, prependCall]
      | ok v => simp [Eff.pure_apply, prependCall]
    · simp [h, Eff.bind_apply, Eff.pure_apply, Sprintf_status, Sprintf_apiError, Errorf, prependCall]

theorem GetStatistics_run_error (rt : Runtime) (d : dexcomClient) (ctx : Context)
    (accessToken : String) (startDate endDate : Time) (stats : Stats) (body : Option String)
    (e : DataError) (hbody : rt.objectToJSONReader stats = (body, some e)) :
    (d.GetStatistics rt ctx accessToken startDate endDate stats).run =
      ((none, some e), [Call.ObjectToJSONReader stats]) := by
  unfold dexcomClient.GetStatistics
  simp [Eff.run, Eff.bind_apply, Eff.pure_apply, ObjectToJSONReader, hbody]

theorem getUser_run_code (rt : Runtime) (d : dexcomClient) (ctx : Context)
    (authorizationCode refreshToken redirectURI : String) (h : authorizationCode ≠ "") :
    (d.getUser rt ctx authorizationCode refreshToken redirectURI).run =
      stampExpiry rt (interpretReply rt.unmarshalUserToken
        (tokenRequest ctx (codeForm d authorizationCode redirectURI))
        (d.c.transport (tokenRequest ctx (codeForm d authorizationCode redirectURI)))) := by
  have hr : ({ ctx := ctx, method := MethodPost, slug := "v1/oauth2/token", query := none,
               headers := (Header.Set [] "Content-type" "application/x-www-form-urlencoded").Set
                 "cache-control" "no-cache",
               body := some (((((Values.Set [] paramClientID d.clientID).Set paramClientSecret
                 d.clientSecret).Set paramRedirectURI redirectURI).Set paramAuthorizationCode
                 authorizationCode).Set paramGrantType grantTypeAuthorizationCode).Encode }
              : Request) = tokenRequest ctx (codeForm d authorizationCode redirectURI) := rfl
  have hlen : len authorizationCode > 0 := (len_pos_iff _).2 h
  unfold dexcomClient.getUser
  simp only [hlen, if_true, Eff.run, Eff.bind_apply, Eff.pure_apply, BaseClient.MakeRequest, hr]
  generalize d.c.transport _ = reply
  obtain ⟨s, ret, err⟩ := reply
  cases err with
  | some e => simp [interpretReply, stampExpiry, Eff.pure_apply]
  | none =>
    simp only [interpretReply]
    by_cases h : 200 ≤ s ∧ s < 300
    · simp only [h, ge_iff_le, and_self, if_true, Eff.bind_apply, Eff.pure_apply, Unmarshal]
      cases hd : rt.unmarshalUserToken ret with
      | error e => simp [Eff.pure_apply, Sprintf_unmarshal, GoError.Error, stampExpiry]
      | ok v => simp [Eff.pure_apply, Eff.bind_apply, stampExpiry, Now]
    · simp [h, Eff.bind_apply, Eff.pure_apply, Sprintf_status, Sprintf_apiError, Errorf,
        stampExpiry]

theorem getUser_run_refresh (rt : Runtime) (d : dexcomClient) (ctx : Context)
    (refreshToken redirectURI : String) (h : refreshToken ≠ "") :
    (d.getUser rt ctx "" refreshToken redirectURI).run =
      stampExpiry rt (interpretReply rt.unmarshalUserToken
        (tokenRequest ctx (refreshForm d refreshToken redirectURI))
        (d.c.transport (tokenRequest ctx (refreshForm d refreshToken redirectURI)))) := by
  have hr : ({ ctx := ctx, method := MethodPost, slug := "v1/oauth2/token", query := none,
               headers := (Header.Set [] "Content-type" "application/x-www-form-urlencoded").Set
                 "cache-control" "no-cache",
               body := some (((((Values.Set [] paramClientID d.clientID).Set paramClientSecret
                 d.clientSecret).Set paramRedirectURI redirectURI).Set paramRefreshToken
                 refreshToken).Set paramGrantType grantTypeRefreshToken).Encode }
              : Request) = tokenRequest ctx (refreshForm d refreshToken redirectURI) := rfl
  have hlen : len refreshToken > 0 := (len_pos_iff _).2 h
  have hlen0 : ¬ len "" > 0 := by decide
  unfold dexcomClient.getUser
  simp only [hlen, hlen0, if_true, if_false, Eff.run, Eff.bind_apply, Eff.pure_apply,
    BaseClient.MakeRequest, hr]
  generalize d.c.transport _ = reply
  obtain ⟨s, ret, err⟩ := reply
  cases err with
  | some e => simp [interpretReply, stampExpiry, Eff.pure_apply]
  | none =>
    simp only [interpretReply]
    by_cases h : 200 ≤ s ∧ s < 300
    · simp only [h, ge_iff_le, and_self, if_true, Eff.bind_apply, Eff.pure_apply, Unmarshal]
      cases hd : rt.unmarshalUserToken ret with
      | error e => simp [Eff.pure_apply, Sprintf_unmarshal, GoError.Error, stampExpiry]
      | ok v => simp [Eff.pure_apply, Eff.bind_apply, stampExpiry, Now]
    · simp [h, Eff.bind_apply, Eff.pure_apply, Sprintf_status, Sprintf_apiError, Errorf,
        stampExpiry]

theorem getUser_run_missing (rt : Runtime) (d : dexcomClient) (ctx : Context)
    (redirectURI : String) :
    (d.getUser rt ctx "" "" redirectURI).run =
      ((none, some (NewDataError none ErrorMissingParam
        "authorization_code or refresh_token is missing")), []) := rfl

theorem requestsOf_interpretReply {α : Type} (decode : String → Except GoError α) (r : Request)
    (reply : Int × String × Option DataError) :
    requestsOf (interpretReply decode r reply).2 = [r] := by
  obtain ⟨s, ret, err⟩ := reply
  cases err with
  | some e => simp [interpretReply, requestsOf]
  | none =>
    by_cases h : 200 ≤ s ∧ s < 300
    · cases hd : decode ret <;> simp [interpretReply, requestsOf, h, hd]
    · simp [interpretReply, requestsOf, h]

theorem requestsOf_append_now (calls : List Call) :
    requestsOf (calls ++ [Call.Now]) = requestsOf calls := by
  induction calls with
  | nil => rfl
  | cons c rest ih => cases c <;> simp [requestsOf, ih]

theorem decodedOf_append_now (calls : List Call) :
    decodedOf (calls ++ [Call.Now]) = decodedOf calls := by
  induction calls with
  | nil => rfl
  | cons c rest ih => cases c <;> simp [decodedOf, ih]

theorem requestsOf_stampExpiry (rt : Runtime)
    (o : (Option UserToken × Option DataError) × List Call) :
    requestsOf (stampExpiry rt o).2 = requestsOf o.2 := by
  obtain ⟨⟨res, err⟩, calls⟩ := o
  cases res <;> simp [stampExpiry, requestsOf_append_now]

theorem decodedOf_stampExpiry (rt : Runtime)
    (o : (Option UserToken × Option DataError) × List Call) :
    decodedOf (stampExpiry rt o).2 = decodedOf o.2 := by
  obtain ⟨⟨res, err⟩, calls⟩ := o
  cases res <;> simp [stampExpiry, decodedOf_append_now]

/-- The reply that an interpreted outcome was built from is the transport's
reply to the request of the operation. -/
theorem reply_of_repliedWith {α : Type} (d : dexcomClient) (decode : String → Except GoError α)
    (r : Request) (reply : Int × String × Option DataError)
    (h : repliedWith d (interpretReply decode r (d.c.transport r)) reply) :
    d.c.transport r = reply := by
  obtain ⟨r1, hr1, ht⟩ := h
  rw [requestsOf_interpretReply] at hr1
  simp only [List.cons.injEq, and_true] at hr1
  rw [hr1]; exact ht

theorem reply_of_repliedWith_stamp (rt : Runtime) (d : dexcomClient) (r : Request)
    (reply : Int × String × Option DataError)
    (h : repliedWith d (stampExpiry rt (interpretReply rt.unmarshalUserToken r (d.c.transport r)))
      reply) :
    d.c.transport r = reply := by
  obtain ⟨r1, hr1, ht⟩ := h
  rw [requestsOf_stampExpiry, requestsOf_interpretReply] at hr1
  simp only [List.cons.injEq, and_true] at hr1
  rw [hr1]; exact ht

theorem reply_of_repliedWith_prepend {α : Type} (d : dexcomClient)
    (decode : String → Except GoError α) (stats : Stats) (r : Request)
    (reply : Int × String × Option DataError)
    (h : repliedWith d (prependCall (Call.ObjectToJSONReader stats)
      (interpretReply decode r (d.c.transport r))) reply) :
    d.c.transport r = reply := by
  obtain ⟨r1, hr1, ht⟩ := h
  simp only [prependCall, requestsOf, requestsOf_interpretReply, List.cons.injEq, and_true] at hr1
  rw [hr1]; exact ht

theorem not_repliedWith_nil {α : Type} (d : dexcomClient) (a : α)
    (reply : Int × String × Option DataError) : ¬ repliedWith d (a, ([] : List Call)) reply := by
  rintro ⟨r, hr, _⟩
  simp [requestsOf] at hr

/-- The outcome of `GetUser`, by cases on the authorization code. -/
theorem GetUser_run (rt : Runtime) (d : dexcomClient) (ctx : Context)
    (authorizationCode redirectURI : String) :
    (d.GetUser rt ctx authorizationCode redirectURI).run =
      if authorizationCode = "" then ((none, some missingParamError), [])
      else stampExpiry rt (interpretReply rt.unmarshalUserToken
        (tokenRequest ctx (codeForm d authorizationCode redirectURI))
        (d.c.transport (tokenRequest ctx (codeForm d authorizationCode redirectURI)))) := by
  by_cases h : authorizationCode = ""
  · subst h
    simp only [if_true]
    exact getUser_run_missing rt d ctx redirectURI
  · simp only [h, if_false]
    exact getUser_run_code rt d ctx authorizationCode "" redirectURI h

/-- The outcome of `RefreshUser`, by cases on the refresh token. -/
theorem RefreshUser_run (rt : Runtime) (d : dexcomClient) (ctx : Context)
    (refreshToken redirectURI : String) :
    (d.RefreshUser rt ctx refreshToken redirectURI).run =
      if refreshToken = "" then ((none, some missingParamError), [])
      else stampExpiry rt (interpretReply rt.unmarshalUserToken
        (tokenRequest ctx (refreshForm d refreshToken redirectURI))
        (d.c.transport (tokenRequest ctx (refreshForm d refreshToken redirectURI)))) := by
  by_cases h : refreshToken = ""
  · subst h
    simp only [if_true]
    exact getUser_run_missing rt d ctx redirectURI
  · simp only [h, if_false]
    exact getUser_run_refresh rt d ctx refreshToken redirectURI h

/-- The outcome of `GetStatistics`, by cases on the serialiser's error. -/
theorem GetStatistics_run_cases (rt : Runtime) (d : dexcomClient) (ctx : Context)
    (accessToken : String) (startDate endDate : Time) (stats : Stats) :
    (d.GetStatistics rt ctx accessToken startDate endDate stats).run =
      match (rt.objectToJSONReader stats).2 with
      | some e => ((none, some e), [Call.ObjectToJSONReader stats])
      | none =>
        prependCall (Call.ObjectToJSONReader stats) (interpretReply rt.unmarshalStatistics
          (dataRequest ctx "POST" "/v1/users/self/statistics" accessToken startDate endDate
            (rt.objectToJSONReader stats).1)
          (d.c.transport
            (dataRequest ctx "POST" "/v1/users/self/statistics" accessToken startDate endDate
              (rt.objectToJSONReader stats).1))) := by
  cases h : rt.objectToJSONReader stats with
  | mk body err =>
    cases err with
    | some e => exact GetStatistics_run_error rt d ctx accessToken startDate endDate stats body e h
    | none => exact GetStatistics_run rt d ctx accessToken startDate endDate stats body h

theorem interpretReply_apiError {α : Type} (decode : String → Except GoError α) (r : Request)
    (s : Int) (body : String) (hs : s < 200 ∨ s ≥ 300) :
    interpretReply decode r (s, body, none) =
      ((none, some (apiError s body)), [Call.MakeRequest r]) := by
  have hn : ¬ (200 ≤ s ∧ s < 300) := by omega
  simp [interpretReply, hn, apiError, NewDataError, ErrorAPI]

theorem interpretReply_transportError {α : Type} (decode : String → Except GoError α)
    (r : Request) (s : Int) (body : String) (e : DataError) :
    interpretReply decode r (s, body, some e) = ((none, some e), [Call.MakeRequest r]) := rfl

theorem interpretReply_decoded {α : Type} (decode : String → Except GoError α) (r : Request)
    (s : Int) (body : String) (v : α) (h1 : 200 ≤ s) (h2 : s < 300) (hd : decode body = .ok v) :
    interpretReply decode r (s, body, none) =
      ((some v, none), [Call.MakeRequest r, Call.Unmarshal body]) := by
  simp [interpretReply, h1, h2, hd]

theorem interpretReply_jsonError {α : Type} (decode : String → Except GoError α) (r : Request)
    (s : Int) (body : String) (err : GoError) (h1 : 200 ≤ s) (h2 : s < 300)
    (hd : decode body = .error err) :
    interpretReply decode r (s, body, none) =
      ((none, some (jsonError s err)), [Call.MakeRequest r, Call.Unmarshal body]) := by
  simp [interpretReply, h1, h2, hd, jsonError, NewDataError, ErrorJSON]

/-- A property of outcomes that holds for the interpreted reply holds for a
data operation that made one request. -/
theorem data_outcome {α : Type} (d : dexcomClient) (decode : String → Except GoError α)
    (r : Request) (reply : Int × String × Option DataError)
    (P : (Option α × Option DataError) × List Call → Prop)
    (hP : P (interpretReply decode r reply)) :
    repliedWith d (interpretReply decode r (d.c.transport r)) reply →
      P (interpretReply decode r (d.c.transport r)) := by
  intro h
  rw [reply_of_repliedWith d decode r reply h]
  exact hP

theorem stats_outcome (rt : Runtime) (d : dexcomClient) (ctx : Context) (accessToken : String)
    (startDate endDate : Time) (stats : Stats) (reply : Int × String × Option DataError)
    (P : (Option Statistics × Option DataError) × List Call → Prop)
    (hP : ∀ r, P (prependCall (Call.ObjectToJSONReader stats)
      (interpretReply rt.unmarshalStatistics r reply))) :
    repliedWith d (d.GetStatistics rt ctx accessToken startDate endDate stats).run reply →
      P (d.GetStatistics rt ctx accessToken startDate endDate stats).run := by
  rw [GetStatistics_run_cases]
  cases hj : (rt.objectToJSONReader stats).2 with
  | some e =>
    rintro ⟨r, hr, _⟩
    simp [requestsOf] at hr
  | none =>
    intro h
    rw [reply_of_repliedWith_prepend d _ stats _ reply h]
    exact hP _

theorem GetUser_outcome (rt : Runtime) (d : dexcomClient) (ctx : Context)
    (authorizationCode redirectURI : String) (reply : Int × String × Option DataError)
    (P : (Option UserToken × Option DataError) × List Call → Prop)
    (hP : ∀ r, P (stampExpiry rt (interpretReply rt.unmarshalUserToken r reply))) :
    repliedWith d (d.GetUser rt ctx authorizationCode redirectURI).run reply →
      P (d.GetUser rt ctx authorizationCode redirectURI).run := by
  rw [GetUser_run]
  by_cases hc : authorizationCode = ""
  · simp only [hc, if_true]
    intro h
    exact absurd h (not_repliedWith_nil _ _ _)
  · simp only [hc, if_false]
    intro h
    rw [reply_of_repliedWith_stamp rt d _ reply h]
    exact hP _

theorem RefreshUser_outcome (rt : Runtime) (d : dexcomClient) (ctx : Context)
    (refreshToken redirectURI : String) (reply : Int × String × Option DataError)
    (P : (Option UserToken × Option DataError) × List Call → Prop)
    (hP : ∀ r, P (stampExpiry rt (interpretReply rt.unmarshalUserToken r reply))) :
    repliedWith d (d.RefreshUser rt ctx refreshToken redirectURI).run reply →
      P (d.RefreshUser rt ctx refreshToken redirectURI).run := by
  rw [RefreshUser_run]
  by_cases hc : refreshToken = ""
  · simp only [hc, if_true]
    intro h
    exact absurd h (not_repliedWith_nil _ _ _)
  · simp only [hc, if_false]
    intro h
    rw [reply_of_repliedWith_stamp rt d _ reply h]
    exact hP _

/-- The duration computed for the expiry is exact as long as `(n - 5)` seconds
fit the 64-bit count of nanoseconds of a `time.Duration`. -/
theorem expiry_duration_exact (n : Int) (h1 : -9223372031 ≤ n) (h2 : n ≤ 9223372041) :
    wrapInt64 (wrapInt64 (n - 5) * Second) = (n - 5) * 1000000000 := by
  unfold wrapInt64 Second
  omega

/-! ### The calendar -/

theorem absYearDay_bounds (abs : Int) :
    0 ≤ (absYearDay abs).2 ∧ (absYearDay abs).2 ≤ 365 ∧
    ((absYearDay abs).2 = 365 → isLeap (absYearDay abs).1 = true) := by
  simp only [absYearDay, isLeap, secondsPerDay, daysPer400Years, daysPer100Years, daysPer4Years]
  generalize abs / 86400 = D
  norm_num only
  generalize hn1 : D / 146097 = n1
  generalize hd1 : D - 146097 * n1 = d1
  have hd1b : 0 ≤ d1 ∧ d1 < 146097 := by omega
  generalize hn2 : d1 / 36524 = n2
  have hn2b : 0 ≤ n2 ∧ n2 ≤ 4 := by omega
  generalize hn2' : n2 - n2 / 4 = m2
  generalize hd2 : d1 - 36524 * m2 = d2
  generalize hn3 : d2 / 1461 = n3
  generalize hd3 : d2 - 1461 * n3 = d3
  generalize hn4 : d3 / 365 = n4
  have hn4b : 0 ≤ n4 ∧ n4 ≤ 4 := by omega
  generalize hn4' : n4 - n4 / 4 = m4
  obtain ⟨h0, h4⟩ := hn2b
  obtain ⟨k0, k4⟩ := hn4b
  simp only [Bool.and_eq_true, Bool.or_eq_true, beq_iff_eq, bne_iff_ne, ne_eq]
  interval_cases n2 <;> interval_cases n4 <;> omega

/-- The years 0 to 9999 are the seconds from 0000-01-01T00:00:00 up to, and
not including, 10000-01-01T00:00:00. -/
theorem absYearDay_year (abs : Int) (h1 : -31622400 ≤ abs) (h2 : abs < 315537897600) :
    0 ≤ (absYearDay abs).1 ∧ (absYearDay abs).1 ≤ 9999 := by
  simp only [absYearDay, secondsPerDay, daysPer400Years, daysPer100Years, daysPer4Years]
  have hD : -366 ≤ abs / 86400 ∧ abs / 86400 < 3652059 := by omega
  generalize abs / 86400 = D at hD
  obtain ⟨hD1, hD2⟩ := hD
  norm_num only
  generalize hn1 : D / 146097 = n1
  generalize hd1 : D - 146097 * n1 = d1
  have hd1b : 0 ≤ d1 ∧ d1 < 146097 := by omega
  generalize hn2 : d1 / 36524 = n2
  have hn2b : 0 ≤ n2 ∧ n2 ≤ 4 := by omega
  generalize hn2' : n2 - n2 / 4 = m2
  generalize hd2 : d1 - 36524 * m2 = d2
  generalize hn3 : d2 / 1461 = n3
  generalize hd3 : d2 - 1461 * n3 = d3
  generalize hn4 : d3 / 365 = n4
  have hn4b : 0 ≤ n4 ∧ n4 ≤ 4 := by omega
  generalize hn4' : n4 - n4 / 4 = m4
  obtain ⟨h0, h4⟩ := hn2b
  obtain ⟨k0, k4⟩ := hn4b
  interval_cases n2 <;> interval_cases n4 <;> omega

theorem absMonthDay_bounds (year yday : Int) (h0 : 0 ≤ yday) (h1 : yday ≤ 365)
    (hl : yday = 365 → isLeap year = true) :
    1 ≤ (absMonthDay year yday).1 ∧ (absMonthDay year yday).1 ≤ 12
    ∧ 1 ≤ (absMonthDay year yday).2 ∧ (absMonthDay year yday).2 ≤ 31 := by
  unfold absMonthDay
  cases hleap : isLeap year
  · have hne : yday ≠ 365 := fun h => by simp [hl h] at hleap
    simp only [Bool.false_and, Bool.false_eq_true, if_false]
    generalize hm : yday / 31 = m
    have hmb : 0 ≤ m ∧ m ≤ 11 := by omega
    obtain ⟨m0, m11⟩ := hmb
    interval_cases m <;> simp [daysBefore] <;> split_ifs <;> simp <;> omega
  · simp only [Bool.true_and, beq_iff_eq, decide_eq_true_eq]
    by_cases h59 : yday = 31 + 29 - 1
    · simp [h59]
    · simp only [h59, if_false]
      by_cases hgt : yday > 31 + 29 - 1
      · simp only [hgt, if_true]
        generalize hm : (yday - 1) / 31 = m
        have hmb : 0 ≤ m ∧ m ≤ 11 := by omega
        obtain ⟨m0, m11⟩ := hmb
        interval_cases m <;> simp [daysBefore] <;> split_ifs <;> simp <;> omega
      · simp only [hgt, if_false]
        generalize hm : yday / 31 = m
        have hmb : 0 ≤ m ∧ m ≤ 11 := by omega
        obtain ⟨m0, m11⟩ := hmb
        interval_cases m <;> simp [daysBefore] <;> split_ifs <;> simp <;> omega

/-- The month is one of 1..12 and the day one of 1..31, for every instant. -/
theorem absDate_bounds (abs : Int) :
    1 ≤ (absDate abs).2.1 ∧ (absDate abs).2.1 ≤ 12
    ∧ 1 ≤ (absDate abs).2.2 ∧ (absDate abs).2.2 ≤ 31 := by
  obtain ⟨h0, h1, hl⟩ := absYearDay_bounds abs
  exact absMonthDay_bounds _ _ h0 h1 hl

/-- The hour is one of 0..23, the minute and the second one of 0..59. -/
theorem absClock_bounds (abs : Int) :
    0 ≤ (absClock abs).1 ∧ (absClock abs).1 ≤ 23
    ∧ 0 ≤ (absClock abs).2.1 ∧ (absClock abs).2.1 ≤ 59
    ∧ 0 ≤ (absClock abs).2.2 ∧ (absClock abs).2.2 ≤ 59 := by
  simp only [absClock, secondsPerDay]
  omega

theorem appendInt_two (b : List Char) (x : Int) (h0 : 0 ≤ x) (h1 : x < 100) :
    appendInt b x 2 = b ++ [digitChar (x.toNat / 10), digitChar x.toNat] := by
  have hneg : ¬ x < 0 := by omega
  have hu : x.toNat < 100 := by omega
  have hn : x.natAbs = x.toNat := by omega
  simp [appendInt, hneg, hu, hn]

theorem appendInt_four (b : List Char) (x : Int) (h0 : 0 ≤ x) (h1 : x < 10000) :
    appendInt b x 4 =
      b ++ [digitChar (x.toNat / 1000), digitChar (x.toNat / 100), digitChar (x.toNat / 10),
            digitChar x.toNat] := by
  have hneg : ¬ x < 0 := by omega
  have hu : x.toNat < 10000 := by omega
  have hn : x.natAbs = x.toNat := by omega
  simp [appendInt, hneg, hu, hn]

theorem UTC_abs (t : Time) : t.UTC.abs = t.unixNano / 1000000000 + unixToInternal := by
  simp [Time.UTC, Time.abs, utcLoc]

/-- The layout `timeformat` is the year, month, day, hour, minute and second
with their separators. -/
theorem appendFormat_timeformat (date clock : Int × Int × Int) :
    appendFormat date clock [] timeformat.toList =
      appendInt (appendInt (appendInt (appendInt (appendInt (appendInt [] date.1 4 ++ ['-'])
        date.2.1 2 ++ ['-']) date.2.2 2 ++ ['T']) clock.1 2 ++ [':']) clock.2.1 2 ++ [':'])
        clock.2.2 2 := rfl

/-- The formatted UTC time of an instant in the years 0 to 9999. -/
theorem Format_UTC_eq (t : Time) (h1 : -62167219200000000000 ≤ t.unixNano)
    (h2 : t.unixNano < 253402300800000000000) :
    t.UTC.Format timeformat = isoSeconds (utcDate t) (utcClock t) := by
  have habs : -31622400 ≤ t.unixNano / 1000000000 + unixToInternal
      ∧ t.unixNano / 1000000000 + unixToInternal < 315537897600 := by
    simp only [unixToInternal, secondsPerDay]
    omega
  obtain ⟨y0, y1⟩ := absYearDay_year _ habs.1 habs.2
  obtain ⟨m0, m1, d0, d1⟩ := absDate_bounds (t.unixNano / 1000000000 + unixToInternal)
  obtain ⟨c0, c1, c2, c3, c4, c5⟩ := absClock_bounds (t.unixNano / 1000000000 + unixToInternal)
  have hy : (absDate (t.unixNano / 1000000000 + unixToInternal)).1
      = (absYearDay (t.unixNano / 1000000000 + unixToInternal)).1 := rfl
  simp only [Time.Format, UTC_abs, appendFormat_timeformat, isoSeconds, utcDate, utcClock]
  generalize t.unixNano / 1000000000 + unixToInternal = a at *
  rw [appendInt_two _ (absClock a).2.2 c4 (by omega),
    appendInt_two _ (absClock a).2.1 c2 (by omega),
    appendInt_two _ (absClock a).1 c0 (by omega),
    appendInt_two _ (absDate a).2.2 (by omega) (by omega),
    appendInt_two _ (absDate a).2.1 (by omega) (by omega),
    appendInt_four _ (absDate a).1 (hy ▸ y0) (by rw [hy]; omega)]
  simp

/-- The formatted UTC time depends on the instant only. -/
theorem Format_UTC_congr (t u : Time) (h : t.unixNano = u.unixNano) (layout : String) :
    t.UTC.Format layout = u.UTC.Format layout := by
  simp only [Time.Format, UTC_abs, h]

theorem fieldsFit_of_range (t : Time) (h1 : -62167219200000000000 ≤ t.unixNano)
    (h2 : t.unixNano < 253402300800000000000) : fieldsFit t := by
  have habs : -31622400 ≤ t.unixNano / 1000000000 + unixToInternal
      ∧ t.unixNano / 1000000000 + unixToInternal < 315537897600 := by
    simp only [unixToInternal, secondsPerDay]
    omega
  exact ⟨absYearDay_year _ habs.1 habs.2, ⟨(absDate_bounds _).1, (absDate_bounds _).2.1⟩,
    ⟨(absDate_bounds _).2.2.1, (absDate_bounds _).2.2.2⟩,
    ⟨(absClock_bounds _).1, (absClock_bounds _).2.1⟩,
    ⟨(absClock_bounds _).2.2.1, (absClock_bounds _).2.2.2.1⟩,
    ⟨(absClock_bounds _).2.2.2.2.1, (absClock_bounds _).2.2.2.2.2⟩⟩

/-- The requests of `GetStatistics`: none when the serialiser fails. -/
theorem requestsOf_GetStatistics (rt : Runtime) (d : dexcomClient) (ctx : Context)
    (accessToken : String) (startDate endDate : Time) (stats : Stats) :
    requestsOf (d.GetStatistics rt ctx accessToken startDate endDate stats).run.2 =
      match (rt.objectToJSONReader stats).2 with
      | some _ => []
      | none => [dataRequest ctx "POST" "/v1/users/self/statistics" accessToken startDate endDate
          (rt.objectToJSONReader stats).1] := by
  rw [GetStatistics_run_cases]
  cases (rt.objectToJSONReader stats).2 with
  | some e => rfl
  | none => simp only [prependCall, requestsOf, requestsOf_interpretReply]

theorem dataRequest_query (ctx : Context) (method slug accessToken : String)
    (startDate endDate : Time) (body : Option String)
    (hs1 : -62167219200000000000 ≤ startDate.unixNano)
    (hs2 : startDate.unixNano < 253402300800000000000)
    (he1 : -62167219200000000000 ≤ endDate.unixNano)
    (he2 : endDate.unixNano < 253402300800000000000) :
    (dataRequest ctx method slug accessToken startDate endDate body).query =
      dateRangeQuery startDate endDate := by
  simp only [dataRequest, dateRangeQuery, Format_UTC_eq startDate hs1 hs2,
    Format_UTC_eq endDate he1 he2]

theorem dataRequest_query_congr (ctx : Context) (method slug accessToken : String)
    (startDate endDate otherStart otherEnd : Time) (body : Option String)
    (hos : otherStart.unixNano = startDate.unixNano)
    (hoe : otherEnd.unixNano = endDate.unixNano) :
    (dataRequest ctx method slug accessToken otherStart otherEnd body).query =
      (dataRequest ctx method slug accessToken startDate endDate body).query := by
  simp only [dataRequest, Format_UTC_congr otherStart startDate hos,
    Format_UTC_congr otherEnd endDate hoe]

/-! ### The form encoding -/

theorem upperhex_ne_sep (n : Nat) : upperhex n ≠ '&' ∧ upperhex n ≠ '=' := by
  by_cases h : n < 16
  · interval_cases n <;> decide
  · have h16 : 16 ≤ n := by omega
    have : upperhex n = '0' := by
      unfold upperhex
      rw [List.getD_eq_default]
      exact h16
    rw [this]; decide

theorem escapeChar_ne_sep (c x : Char) (hx : x ∈ escapeChar c) : x ≠ '&' ∧ x ≠ '=' := by
  unfold escapeChar at hx
  split_ifs at hx with h1 h2
  · simp only [List.mem_singleton] at hx
    rw [hx]; decide
  · simp only [List.mem_flatMap, List.mem_cons, List.mem_singleton, List.not_mem_nil,
      or_false] at hx
    obtain ⟨b, _, hb⟩ := hx
    rcases hb with hb | hb | hb
    · rw [hb]; decide
    · rw [hb]; exact upperhex_ne_sep _
    · rw [hb]; exact upperhex_ne_sep _
  · simp only [List.mem_singleton] at hx
    rw [hx]
    constructor
    · intro hc; rw [hc] at h2; exact h2 (by decide)
    · intro hc; rw [hc] at h2; exact h2 (by decide)

/-- An escaped text contains neither `&` nor `=`: in an encoded form these two
characters only separate the pairs and the key from the value. -/
theorem QueryEscape_ne_sep (s : String) (x : Char) (hx : x ∈ (QueryEscape s).toList) :
    x ≠ '&' ∧ x ≠ '=' := by
  simp only [QueryEscape, String.toList, List.mem_flatMap] at hx
  obtain ⟨c, _, hc⟩ := hx
  exact escapeChar_ne_sep c x hc

theorem requestsOf_GetUser (rt : Runtime) (d : dexcomClient) (ctx : Context)
    (authorizationCode redirectURI : String) (h : authorizationCode ≠ "") :
    requestsOf (d.GetUser rt ctx authorizationCode redirectURI).run.2 =
      [tokenRequest ctx (codeForm d authorizationCode redirectURI)] := by
  rw [GetUser_run]
  simp only [h, if_false]
  rw [requestsOf_stampExpiry, requestsOf_interpretReply]

theorem requestsOf_RefreshUser (rt : Runtime) (d : dexcomClient) (ctx : Context)
    (refreshToken redirectURI : String) (h : refreshToken ≠ "") :
    requestsOf (d.RefreshUser rt ctx refreshToken redirectURI).run.2 =
      [tokenRequest ctx (refreshForm d refreshToken redirectURI)] := by
  rw [RefreshUser_run]
  simp only [h, if_false]
  rw [requestsOf_stampExpiry, requestsOf_interpretReply]

/-! ### The shared branch -/

theorem interpretReply_fst {α : Type} (decode : String → Except GoError α) (r : Request)
    (reply : Int × String × Option DataError) :
    (interpretReply decode r reply).1 = responseInterpreter decode reply := by
  obtain ⟨s, body, err⟩ := reply
  cases err with
  | some e => rfl
  | none =>
    by_cases h : 200 ≤ s ∧ s < 300
    · cases hd : decode body <;>
        simp [interpretReply, responseInterpreter, h, hd, jsonError, NewDataError, ErrorJSON]
    · simp [interpretReply, responseInterpreter, h, apiError, NewDataError, ErrorAPI]

theorem stampExpiry_fst (rt : Runtime) (o : (Option UserToken × Option DataError) × List Call) :
    (stampExpiry rt o).1 = withExpiry rt o.1 := by
  obtain ⟨⟨res, err⟩, calls⟩ := o
  cases res <;> rfl

theorem responseInterpreter_iff {α : Type} (decode : String → Except GoError α)
    (reply : Int × String × Option DataError) :
    (responseInterpreter decode reply).1 ≠ none ↔ (responseInterpreter decode reply).2 = none := by
  obtain ⟨s, body, err⟩ := reply
  cases err with
  | some e => simp [responseInterpreter]
  | none =>
    by_cases h : 200 ≤ s ∧ s < 300
    · cases hd : decode body <;> simp [responseInterpreter, h, hd]
    · simp [responseInterpreter, h]

theorem withExpiry_iff (rt : Runtime) (p : Option UserToken × Option DataError) :
    ((withExpiry rt p).1 ≠ none ↔ (withExpiry rt p).2 = none) ↔ (p.1 ≠ none ↔ p.2 = none) := by
  obtain ⟨res, err⟩ := p
  cases res <;> simp [withExpiry]

theorem getLast?_interpretReply_failed {α : Type} (decode : String → Except GoError α)
    (r : Request) (s : Int) (body : String) (err : Option DataError)
    (h : err ≠ none ∨ s < 200 ∨ s ≥ 300) :
    (interpretReply decode r (s, body, err)).2 = [Call.MakeRequest r] := by
  cases err with
  | some e => rfl
  | none =>
    have hs : s < 200 ∨ s ≥ 300 := by
      rcases h with h | h | h
      · exact absurd rfl h
      · exact Or.inl h
      · exact Or.inr h
    rw [interpretReply_apiError decode r s body hs]

theorem stampExpiry_of_none (rt : Runtime) (e : Option DataError) (calls : List Call) :
    stampExpiry rt ((none, e), calls) = ((none, e), calls) := rfl

/-- No retry, for the interpreted reply of a request. -/
theorem noRetry_interpretReply {α : Type} (decode : String → Except GoError α) (r : Request)
    (s : Int) (body : String) (err : Option DataError) :
    ((err ≠ none ∨ s < 200 ∨ s ≥ 300) →
        (interpretReply decode r (s, body, err)).1.1 = none
        ∧ (interpretReply decode r (s, body, err)).2 = [Call.MakeRequest r])
    ∧ (err = none → 200 ≤ s → s < 300 → ∀ e, decode body = .error e →
        (interpretReply decode r (s, body, err)).1.1 = none
        ∧ (interpretReply decode r (s, body, err)).2 = [Call.MakeRequest r, Call.Unmarshal body]) := by
  constructor
  · intro h
    have h2 := getLast?_interpretReply_failed decode r s body err h
    refine ⟨?_, h2⟩
    cases err with
    | some e => rfl
    | none =>
      have hs : s < 200 ∨ s ≥ 300 := by
        rcases h with h | h | h
        · exact absurd rfl h
        · exact Or.inl h
        · exact Or.inr h
      rw [interpretReply_apiError decode r s body hs]
  · intro he h1 h2 e hd
    subst he
    rw [interpretReply_jsonError decode r s body e h1 h2 hd]
    exact ⟨rfl, rfl⟩

theorem noRetry_data {α : Type} (d : dexcomClient) (decode : String → Except GoError α)
    (r : Request) : noRetry d decode (interpretReply decode r (d.c.transport r)) := by
  refine ⟨by rw [requestsOf_interpretReply]; exact Nat.le_refl 1, ?_⟩
  intro s body err hrep
  have ht := reply_of_repliedWith d decode r (s, body, err) hrep
  rw [ht]
  obtain ⟨hf, hj⟩ := noRetry_interpretReply decode r s body err
  constructor
  · intro h
    exact ⟨r, by rw [(hf h).2]; rfl⟩
  · intro he h1 h2 e hd
    rw [(hj he h1 h2 e hd).2]; rfl

theorem noRetry_stats {α : Type} (d : dexcomClient) (decode : String → Except GoError α)
    (stats : Stats) (r : Request) :
    noRetry d decode
      (prependCall (Call.ObjectToJSONReader stats) (interpretReply decode r (d.c.transport r))) := by
  refine ⟨by simp only [prependCall, requestsOf, requestsOf_interpretReply]; exact Nat.le_refl 1,
    ?_⟩
  intro s body err hrep
  have ht := reply_of_repliedWith_prepend d decode stats r (s, body, err) hrep
  rw [ht]
  obtain ⟨hf, hj⟩ := noRetry_interpretReply decode r s body err
  constructor
  · intro h
    exact ⟨r, by simp only [prependCall]; rw [(hf h).2]; rfl⟩
  · intro he h1 h2 e hd
    simp only [prependCall]
    rw [(hj he h1 h2 e hd).2]; rfl

theorem noRetry_token (rt : Runtime) (d : dexcomClient) (r : Request) :
    noRetry d rt.unmarshalUserToken
      (stampExpiry rt (interpretReply rt.unmarshalUserToken r (d.c.transport r))) := by
  refine ⟨by rw [requestsOf_stampExpiry, requestsOf_interpretReply]; exact Nat.le_refl 1, ?_⟩
  intro s body err hrep
  have ht := reply_of_repliedWith_stamp rt d r (s, body, err) hrep
  rw [ht]
  obtain ⟨hf, hj⟩ := noRetry_interpretReply rt.unmarshalUserToken r s body err
  have key : ∀ calls, (interpretReply rt.unmarshalUserToken r (s, body, err)).1.1 = none →
      (interpretReply rt.unmarshalUserToken r (s, body, err)).2 = calls →
      (stampExpiry rt (interpretReply rt.unmarshalUserToken r (s, body, err))).2 = calls := by
    intro calls h1 h2
    generalize interpretReply rt.unmarshalUserToken r (s, body, err) = o at h1 h2
    obtain ⟨⟨res, e⟩, cs⟩ := o
    simp only at h1 h2
    subst h1; subst h2; rfl
  constructor
  · intro h
    exact ⟨r, by rw [key _ (hf h).1 (hf h).2]; rfl⟩
  · intro he h1 h2 e hd
    rw [key _ (hj he h1 h2 e hd).1 (hj he h1 h2 e hd).2]; rfl

theorem noRetry_of_no_request {α : Type} (d : dexcomClient) (decode : String → Except GoError α)
    (o : (Option α × Option DataError) × List Call) (h : requestsOf o.2 = []) :
    noRetry d decode o := by
  refine ⟨by rw [h]; exact Nat.zero_le 1, ?_⟩
  rintro s body err ⟨r, hr, _⟩
  rw [h] at hr
  exact absurd hr (by simp)

/-! ### Decoding the optional fields of EGV -/

theorem decodeMembers_append (e : EGV) (a b : List (String × JSON)) :
    decodeMembers e (a ++ b) =
      match decodeMembers e a with
      | .ok e1 => decodeMembers e1 b
      | .error err => .error err := by
  induction a generalizing e with
  | nil => rfl
  | cons m rest ih =>
    simp only [List.cons_append, decodeMembers]
    cases e.store m.1 m.2 with
    | ok e1 => exact ih e1
    | error err => rfl

/-- An update that commutes with the store of every member of another field
commutes with the decoding of members of other fields. -/
theorem decodeMembers_comm (f : EGVField) (upd : EGV → EGV)
    (hupd : ∀ (e : EGV) (key : String) (v : JSON), lookupField key ≠ some f →
      (upd e).store key v = (e.store key v).map upd)
    (ms : List (String × JSON)) (h : otherMembers f ms) (e : EGV) :
    decodeMembers (upd e) ms = (decodeMembers e ms).map upd := by
  induction ms generalizing e with
  | nil => rfl
  | cons m rest ih =>
    have hm : lookupField m.1 ≠ some f := h m (List.mem_cons_self _ _)
    have hrest : otherMembers f rest := fun x hx => h x (List.mem_cons_of_mem _ hx)
    simp only [decodeMembers, hupd e m.1 m.2 hm]
    cases e.store m.1 m.2 with
    | ok e1 => exact ih hrest e1
    | error err => rfl

theorem store_comm_Status (x : Option String) (e : EGV) (key : String) (v : JSON)
    (h : lookupField key ≠ some .Status) :
    ({ e with Status := x } : EGV).store key v
      = (e.store key v).map (fun e1 => { e1 with Status := x }) := by
  unfold EGV.store
  cases hk : lookupField key with
  | none => rfl
  | some f =>
    cases f <;> first | exact absurd hk h | (cases v <;> rfl)

theorem store_comm_Trend (x : Option String) (e : EGV) (key : String) (v : JSON)
    (h : lookupField key ≠ some .Trend) :
    ({ e with Trend := x } : EGV).store key v
      = (e.store key v).map (fun e1 => { e1 with Trend := x }) := by
  unfold EGV.store
  cases hk : lookupField key with
  | none => rfl
  | some f =>
    cases f <;> first | exact absurd hk h | (cases v <;> rfl)

theorem store_comm_TrendRate (x : Option float64) (e : EGV) (key : String) (v : JSON)
    (h : lookupField key ≠ some .TrendRate) :
    ({ e with TrendRate := x } : EGV).store key v
      = (e.store key v).map (fun e1 => { e1 with TrendRate := x }) := by
  unfold EGV.store
  cases hk : lookupField key with
  | none => rfl
  | some f =>
    cases f <;> first | exact absurd hk h | (cases v <;> rfl)

/-- The two decodings of an optional field: with the member absent or `null` the
same record results, in which the field is what `setNone` leaves, and with a
value the record differs from it by `setVal`. -/
theorem optional_member (f : EGVField) (key : String) (value : JSON) (setNone setVal : EGV → EGV)
    (hnone : ∀ (e : EGV) (k : String) (v : JSON), lookupField k ≠ some f →
      (setNone e).store k v = (e.store k v).map setNone)
    (hval : ∀ (e : EGV) (k : String) (v : JSON), lookupField k ≠ some f →
      (setVal e).store k v = (e.store k v).map setVal)
    (hzero : setNone zeroEGV = zeroEGV)
    (hnull : ∀ e : EGV, e.store key .null = .ok (setNone e))
    (hvalue : ∀ e : EGV, e.store key value = .ok (setVal e))
    (pre post : List (String × JSON)) (h : otherMembers f (pre ++ post)) (e0 : EGV)
    (h0 : decodeMembers zeroEGV (pre ++ post) = .ok e0) :
    setNone e0 = e0
    ∧ decodeMembers zeroEGV (pre ++ (key, .null) :: post) = .ok e0
    ∧ decodeMembers zeroEGV (pre ++ (key, value) :: post) = .ok (setVal e0) := by
  have hpre : otherMembers f pre := fun m hm => h m (List.mem_append_left _ hm)
  have hpost : otherMembers f post := fun m hm => h m (List.mem_append_right _ hm)
  have frame : ∀ (ms : List (String × JSON)) (e1 : EGV), otherMembers f ms →
      decodeMembers zeroEGV ms = .ok e1 → setNone e1 = e1 := by
    intro ms e1 hms hdec
    have hc := decodeMembers_comm f setNone hnone ms hms zeroEGV
    rw [hzero, hdec] at hc
    exact (Except.ok.inj hc).symm
  rw [decodeMembers_append] at h0
  cases hp : decodeMembers zeroEGV pre with
  | error err => rw [hp] at h0; cases h0
  | ok e1 =>
    rw [hp] at h0
    simp only at h0
    have he1 : setNone e1 = e1 := frame pre e1 hpre hp
    refine ⟨frame (pre ++ post) e0 h (by rw [decodeMembers_append, hp]; exact h0), ?_, ?_⟩
    · rw [decodeMembers_append, hp]
      simp only [decodeMembers, hnull, he1]
      exact h0
    · rw [decodeMembers_append, hp]
      simp only [decodeMembers, hvalue]
      rw [decodeMembers_comm f setVal hval post hpost e1, h0]
      rfl

/-! ### The outcome for a given reply of the transport -/

theorem GetUser_run_of (rt : Runtime) (d : dexcomClient) (ctx : Context)
    (authorizationCode redirectURI : String) (reply : Int × String × Option DataError)
    (ha : authorizationCode ≠ "")
    (ht : answers d (userRequest d ctx authorizationCode redirectURI) reply) :
    (d.GetUser rt ctx authorizationCode redirectURI).run =
      stampExpiry rt (interpretReply rt.unmarshalUserToken
        (userRequest d ctx authorizationCode redirectURI) reply) := by
  rw [GetUser_run]
  simp only [ha, if_false]
  unfold answers userRequest at ht
  rw [ht]
  rfl

theorem RefreshUser_run_of (rt : Runtime) (d : dexcomClient) (ctx : Context)
    (refreshToken redirectURI : String) (reply : Int × String × Option DataError)
    (hr : refreshToken ≠ "")
    (ht : answers d (refreshRequest d ctx refreshToken redirectURI) reply) :
    (d.RefreshUser rt ctx refreshToken redirectURI).run =
      stampExpiry rt (interpretReply rt.unmarshalUserToken
        (refreshRequest d ctx refreshToken redirectURI) reply) := by
  rw [RefreshUser_run]
  simp only [hr, if_false]
  unfold answers refreshRequest at ht
  rw [ht]
  rfl

theorem GetDevices_run_of (rt : Runtime) (d : dexcomClient) (ctx : Context)
    (accessToken : String) (startDate endDate : Time) (reply : Int × String × Option DataError)
    (ht : answers d (devicesRequest ctx accessToken startDate endDate) reply) :
    (d.GetDevices rt ctx accessToken startDate endDate).run =
      interpretReply rt.unmarshalDeviceResponse
        (devicesRequest ctx accessToken startDate endDate) reply := by
  rw [GetDevices_run]
  unfold answers devicesRequest at ht
  rw [ht]
  rfl

theorem GetEGVs_run_of (rt : Runtime) (d : dexcomClient) (ctx : Context)
    (accessToken : String) (startDate endDate : Time) (reply : Int × String × Option DataError)
    (ht : answers d (egvsRequest ctx accessToken startDate endDate) reply) :
    (d.GetEGVs rt ctx accessToken startDate endDate).run =
      interpretReply rt.unmarshalEGVResponse
        (egvsRequest ctx accessToken startDate endDate) reply := by
  rw [GetEGVs_run]
  unfold answers egvsRequest at ht
  rw [ht]
  rfl

theorem GetEvents_run_of (rt : Runtime) (d : dexcomClient) (ctx : Context)
    (accessToken : String) (startDate endDate : Time) (reply : Int × String × Option DataError)
    (ht : answers d (eventsRequest ctx accessToken startDate endDate) reply) :
    (d.GetEvents rt ctx accessToken startDate endDate).run =
      interpretReply rt.unmarshalEventResponse
        (eventsRequest ctx accessToken startDate endDate) reply := by
  rw [GetEvents_run]
  unfold answers eventsRequest at ht
  rw [ht]
  rfl

theorem GetStatistics_run_of (rt : Runtime) (d : dexcomClient) (ctx : Context)
    (accessToken : String) (startDate endDate : Time) (stats : Stats) (jsonBody : Option String)
    (reply : Int × String × Option DataError)
    (hjson : rt.objectToJSONReader stats = (jsonBody, none))
    (ht : answers d (statisticsRequest ctx accessToken startDate endDate jsonBody) reply) :
    (d.GetStatistics rt ctx accessToken startDate endDate stats).run =
      prependCall (Call.ObjectToJSONReader stats) (interpretReply rt.unmarshalStatistics
        (statisticsRequest ctx accessToken startDate endDate jsonBody) reply) := by
  rw [GetStatistics_run rt d ctx accessToken startDate endDate stats jsonBody hjson]
  unfold answers statisticsRequest at ht
  rw [ht]
  rfl

/-! ## The claims -/

/-- C1: `GetUser` with an empty authorization code and `RefreshUser` with an
empty refresh token return no token and the error with code
`ERROR_MISSING_PARAM`, and call nothing (the trace is empty, so `MakeRequest`
is not invoked); with a non-empty credential exactly one request is handed to
the transport and the error returned, if any, is the transport's own or has
code `ERROR_JSON` or `ERROR_API`: the missing-parameter branch is not taken. -/
theorem C1_missing_credential (rt : Runtime) (d : dexcomClient) (ctx : Context)
    (credential redirectURI : String) (h : credential ≠ "") :
    ((d.GetUser rt ctx "" redirectURI).run =
        ((none, some (NewDataError none ErrorMissingParam
          "authorization_code or refresh_token is missing")), [])
      ∧ (d.RefreshUser rt ctx "" redirectURI).run =
        ((none, some (NewDataError none ErrorMissingParam
          "authorization_code or refresh_token is missing")), []))
    ∧ (∃ r, requestsOf (d.GetUser rt ctx credential redirectURI).run.2 = [r]
        ∧ ∀ e, (d.GetUser rt ctx credential redirectURI).run.1.2 = some e →
            (d.c.transport r).2.2 = some e ∨ e.Code = ErrorJSON ∨ e.Code = ErrorAPI)
    ∧ (∃ r, requestsOf (d.RefreshUser rt ctx credential redirectURI).run.2 = [r]
        ∧ ∀ e, (d.RefreshUser rt ctx credential redirectURI).run.1.2 = some e →
            (d.c.transport r).2.2 = some e ∨ e.Code = ErrorJSON ∨ e.Code = ErrorAPI) := by
  have key : ∀ r : Request,
      requestsOf (stampExpiry rt (interpretReply rt.unmarshalUserToken r (d.c.transport r))).2 = [r]
      ∧ ∀ e, (stampExpiry rt (interpretReply rt.unmarshalUserToken r (d.c.transport r))).1.2 = some e →
          (d.c.transport r).2.2 = some e ∨ e.Code = ErrorJSON ∨ e.Code = ErrorAPI := by
    intro r
    refine ⟨by rw [requestsOf_stampExpiry, requestsOf_interpretReply], ?_⟩
    generalize d.c.transport r = reply
    obtain ⟨s, ret, err⟩ := reply
    intro e
    cases err with
    | some e1 =>
      simp only [interpretReply, stampExpiry, Option.some.injEq]
      intro he; exact Or.inl he
    | none =>
      by_cases hs : 200 ≤ s ∧ s < 300
      · cases hd : rt.unmarshalUserToken ret <;>
          simp [interpretReply, stampExpiry, hs, hd, NewDataError, DataError.Code]
        intro he; subst he; simp
      · simp only [interpretReply, stampExpiry, hs, if_false, NewDataError, DataError.Code]
        intro he
        simp only [Option.some.injEq] at he
        subst he; simp
  refine ⟨⟨rfl, rfl⟩, ?_, ?_⟩
  · rw [GetUser_run]; simp only [h, if_false]
    exact ⟨_, key _⟩
  · rw [RefreshUser_run]; simp only [h, if_false]
    exact ⟨_, key _⟩

/-- Witness of C1: the client of the tests, credential `123`, redirect URI `abc`. -/
theorem C1_missing_credential_witness :
    ((testClient (testServer 200 testUserTokenBody)).GetUser (testRuntime testTime "") background
        "" "abc").run =
      ((none, some (NewDataError none ErrorMissingParam
          "authorization_code or refresh_token is missing")), [])
    ∧ ∃ r, requestsOf ((testClient (testServer 200 testUserTokenBody)).GetUser
        (testRuntime testTime "") background "123" "abc").run.2 = [r] :=
  have w := C1_missing_credential (testRuntime testTime "")
    (testClient (testServer 200 testUserTokenBody)) background "123" "abc" (by decide)
  ⟨w.1.1, w.2.1.elim fun r hr => ⟨r, hr.1⟩⟩

/-- C2: for each of the six operations, when the transport answers the
operation's request with a status code `s` outside 200..299 (any integer, any
body, no transport error), the operation returns no result and the error with
code `ERROR_API`, message `Status code was not in the 2xx range: <s>` and inner
error `Error from API: <s> - <body>`, and it makes no call after the request:
the body is not handed to the decoder. (The token exchange has a credential and
the serialiser of `GetStatistics` succeeded, so that the request is made.) -/
theorem C2_non_2xx_is_api_error (rt : Runtime) (d : dexcomClient) (ctx : Context)
    (authorizationCode refreshToken redirectURI accessToken : String) (startDate endDate : Time)
    (stats : Stats) (jsonBody : Option String) (s : Int) (body : String)
    (hs : s < 200 ∨ s ≥ 300) (ha : authorizationCode ≠ "") (hr : refreshToken ≠ "")
    (hjson : rt.objectToJSONReader stats = (jsonBody, none)) :
    (answers d (userRequest d ctx authorizationCode redirectURI) (s, body, none) →
      (d.GetUser rt ctx authorizationCode redirectURI).run =
        ((none, some (apiError s body)),
         [Call.MakeRequest (userRequest d ctx authorizationCode redirectURI)]))
    ∧ (answers d (refreshRequest d ctx refreshToken redirectURI) (s, body, none) →
      (d.RefreshUser rt ctx refreshToken redirectURI).run =
        ((none, some (apiError s body)),
         [Call.MakeRequest (refreshRequest d ctx refreshToken redirectURI)]))
    ∧ (answers d (devicesRequest ctx accessToken startDate endDate) (s, body, none) →
      (d.GetDevices rt ctx accessToken startDate endDate).run =
        ((none, some (apiError s body)),
         [Call.MakeRequest (devicesRequest ctx accessToken startDate endDate)]))
    ∧ (answers d (egvsRequest ctx accessToken startDate endDate) (s, body, none) →
      (d.GetEGVs rt ctx accessToken startDate endDate).run =
        ((none, some (apiError s body)),
         [Call.MakeRequest (egvsRequest ctx accessToken startDate endDate)]))
    ∧ (answers d (eventsRequest ctx accessToken startDate endDate) (s, body, none) →
      (d.GetEvents rt ctx accessToken startDate endDate).run =
        ((none, some (apiError s body)),
         [Call.MakeRequest (eventsRequest ctx accessToken startDate endDate)]))
    ∧ (answers d (statisticsRequest ctx accessToken startDate endDate jsonBody) (s, body, none) →
      (d.GetStatistics rt ctx accessToken startDate endDate stats).run =
        ((none, some (apiError s body)),
         [Call.ObjectToJSONReader stats, Call.MakeRequest (statisticsRequest ctx accessToken startDate endDate jsonBody)])) := by
  refine ⟨?_, ?_, ?_, ?_, ?_, ?_⟩
  · intro ht
    rw [GetUser_run_of rt d ctx authorizationCode redirectURI _ ha ht, interpretReply_apiError _ _ s body hs]
    rfl
  · intro ht
    rw [RefreshUser_run_of rt d ctx refreshToken redirectURI _ hr ht, interpretReply_apiError _ _ s body hs]
    rfl
  · intro ht
    rw [GetDevices_run_of rt d ctx accessToken startDate endDate _ ht, interpretReply_apiError _ _ s body hs]
  · intro ht
    rw [GetEGVs_run_of rt d ctx accessToken startDate endDate _ ht, interpretReply_apiError _ _ s body hs]
  · intro ht
    rw [GetEvents_run_of rt d ctx accessToken startDate endDate _ ht, interpretReply_apiError _ _ s body hs]
  · intro ht
    rw [GetStatistics_run_of rt d ctx accessToken startDate endDate stats jsonBody _ hjson ht, interpretReply_apiError _ _ s body hs]
    rfl

/-- Witness of C2: the "exceptional path" of the tests, status 400 with body
`invalid_request`, for each of the six operations. -/
theorem C2_non_2xx_is_api_error_witness :
    apiError 400 "invalid_request" =
      { inner := some { text := "Error from API: 400 - invalid_request" },
        code := "ERROR_API",
        msg := "Status code was not in the 2xx range: 400" }
    ∧ ((testClient (testServer 400 "invalid_request")).GetUser (testRuntime testTime "\x7b\x7d")
        background "123" "abc").run.1 = (none, some (apiError 400 "invalid_request"))
    ∧ ((testClient (testServer 400 "invalid_request")).RefreshUser
        (testRuntime testTime "\x7b\x7d") background "123" "abc").run.1
      = (none, some (apiError 400 "invalid_request"))
    ∧ ((testClient (testServer 400 "invalid_request")).GetDevices
        (testRuntime testTime "\x7b\x7d") background "123" testTime testTime).run.1
      = (none, some (apiError 400 "invalid_request"))
    ∧ ((testClient (testServer 400 "invalid_request")).GetEGVs
        (testRuntime testTime "\x7b\x7d") background "123" testTime testTime).run.1
      = (none, some (apiError 400 "invalid_request"))
    ∧ ((testClient (testServer 400 "invalid_request")).GetEvents
        (testRuntime testTime "\x7b\x7d") background "123" testTime testTime).run.1
      = (none, some (apiError 400 "invalid_request"))
    ∧ ((testClient (testServer 400 "invalid_request")).GetStatistics
        (testRuntime testTime "\x7b\x7d") background "123" testTime testTime
        (testStats testTime)).run.1 = (none, some (apiError 400 "invalid_request")) :=
  have w := C2_non_2xx_is_api_error (testRuntime testTime "\x7b\x7d")
    (testClient (testServer 400 "invalid_request")) background "123" "123" "abc" "123" testTime
    testTime (testStats testTime) (some "\x7b\x7d") 400 "invalid_request" (by decide)
    (by decide) (by decide) rfl
  ⟨rfl, congrArg Prod.fst (w.1 rfl), congrArg Prod.fst (w.2.1 rfl),
    congrArg Prod.fst (w.2.2.1 rfl), congrArg Prod.fst (w.2.2.2.1 rfl),
    congrArg Prod.fst (w.2.2.2.2.1 rfl), congrArg Prod.fst (w.2.2.2.2.2 rfl)⟩

/-- C3: for each of the six operations, when `MakeRequest` returns an error `e`
for the operation's request (with whatever status code and body), the
operation returns no result and that same error `e`, unchanged, and makes no
call after the request. -/
theorem C3_transport_error_is_returned (rt : Runtime) (d : dexcomClient) (ctx : Context)
    (authorizationCode refreshToken redirectURI accessToken : String) (startDate endDate : Time)
    (stats : Stats) (jsonBody : Option String) (s : Int) (body : String)
    (e : DataError) (ha : authorizationCode ≠ "") (hr : refreshToken ≠ "")
    (hjson : rt.objectToJSONReader stats = (jsonBody, none)) :
    (answers d (userRequest d ctx authorizationCode redirectURI) (s, body, some e) →
      (d.GetUser rt ctx authorizationCode redirectURI).run =
        ((none, some e), [Call.MakeRequest (userRequest d ctx authorizationCode redirectURI)]))
    ∧ (answers d (refreshRequest d ctx refreshToken redirectURI) (s, body, some e) →
      (d.RefreshUser rt ctx refreshToken redirectURI).run =
        ((none, some e), [Call.MakeRequest (refreshRequest d ctx refreshToken redirectURI)]))
    ∧ (answers d (devicesRequest ctx accessToken startDate endDate) (s, body, some e) →
      (d.GetDevices rt ctx accessToken startDate endDate).run =
        ((none, some e), [Call.MakeRequest (devicesRequest ctx accessToken startDate endDate)]))
    ∧ (answers d (egvsRequest ctx accessToken startDate endDate) (s, body, some e) →
      (d.GetEGVs rt ctx accessToken startDate endDate).run =
        ((none, some e), [Call.MakeRequest (egvsRequest ctx accessToken startDate endDate)]))
    ∧ (answers d (eventsRequest ctx accessToken startDate endDate) (s, body, some e) →
      (d.GetEvents rt ctx accessToken startDate endDate).run =
        ((none, some e), [Call.MakeRequest (eventsRequest ctx accessToken startDate endDate)]))
    ∧ (answers d (statisticsRequest ctx accessToken startDate endDate jsonBody) (s, body, some e) →
      (d.GetStatistics rt ctx accessToken startDate endDate stats).run =
        ((none, some e), [Call.ObjectToJSONReader stats, Call.MakeRequest (statisticsRequest ctx accessToken startDate endDate jsonBody)])) := by
  refine ⟨?_, ?_, ?_, ?_, ?_, ?_⟩
  · intro ht
    rw [GetUser_run_of rt d ctx authorizationCode redirectURI _ ha ht]
    rfl
  · intro ht
    rw [RefreshUser_run_of rt d ctx refreshToken redirectURI _ hr ht]
    rfl
  · intro ht
    rw [GetDevices_run_of rt d ctx accessToken startDate endDate _ ht]
    rfl
  · intro ht
    rw [GetEGVs_run_of rt d ctx accessToken startDate endDate _ ht]
    rfl
  · intro ht
    rw [GetEvents_run_of rt d ctx accessToken startDate endDate _ ht]
    rfl
  · intro ht
    rw [GetStatistics_run_of rt d ctx accessToken startDate endDate stats jsonBody _ hjson ht]
    rfl

/-- Witness of C3: the "exceptional path - timeout" of the tests, for each of
the six operations. -/
theorem C3_transport_error_is_returned_witness :
    ((testClient (timeoutServer testTimeoutError)).GetUser (testRuntime testTime "\x7b\x7d")
        background "123" "abc").run.1 = (none, some testTimeoutError)
    ∧ ((testClient (timeoutServer testTimeoutError)).RefreshUser
        (testRuntime testTime "\x7b\x7d") background "123" "abc").run.1
      = (none, some testTimeoutError)
    ∧ ((testClient (timeoutServer testTimeoutError)).GetDevices
        (testRuntime testTime "\x7b\x7d") background "123" testTime testTime).run.1
      = (none, some testTimeoutError)
    ∧ ((testClient (timeoutServer testTimeoutError)).GetEGVs
        (testRuntime testTime "\x7b\x7d") background "123" testTime testTime).run.1
      = (none, some testTimeoutError)
    ∧ ((testClient (timeoutServer testTimeoutError)).GetEvents
        (testRuntime testTime "\x7b\x7d") background "123" testTime testTime).run.1
      = (none, some testTimeoutError)
    ∧ ((testClient (timeoutServer testTimeoutError)).GetStatistics
        (testRuntime testTime "\x7b\x7d") background "123" testTime testTime
        (testStats testTime)).run.1 = (none, some testTimeoutError) :=
  have w := C3_transport_error_is_returned (testRuntime testTime "\x7b\x7d")
    (testClient (timeoutServer testTimeoutError)) background "123" "123" "abc" "123" testTime
    testTime (testStats testTime) (some "\x7b\x7d") 0 "" testTimeoutError
    (by decide) (by decide) rfl
  ⟨congrArg Prod.fst (w.1 rfl), congrArg Prod.fst (w.2.1 rfl),
    congrArg Prod.fst (w.2.2.1 rfl), congrArg Prod.fst (w.2.2.2.1 rfl),
    congrArg Prod.fst (w.2.2.2.2.1 rfl), congrArg Prod.fst (w.2.2.2.2.2 rfl)⟩

/-- C4: for each operation, when the transport answers the operation's
request with a status code in 200..299 and a body that decodes to `v`, the
operation returns no error and, for `GetDevices`, `GetEGVs`, `GetEvents` and
`GetStatistics`, exactly `v`; for `GetUser` and `RefreshUser` the token `v` with
the expiry time stamped, whose `access_token`, `refresh_token`, `expires_in`
and `token_type` are those of `v`. The body is handed to the decoder once. -/
theorem C4_2xx_returns_decoded (rt : Runtime) (d : dexcomClient) (ctx : Context)
    (authorizationCode refreshToken redirectURI accessToken : String) (startDate endDate : Time)
    (stats : Stats) (jsonBody : Option String) (s : Int) (body : String)
    (h1 : 200 ≤ s) (h2 : s < 300) (ha : authorizationCode ≠ "") (hr : refreshToken ≠ "")
    (hjson : rt.objectToJSONReader stats = (jsonBody, none)) :
    (answers d (userRequest d ctx authorizationCode redirectURI) (s, body, none) →
      ∀ v, rt.unmarshalUserToken body = .ok v →
        (d.GetUser rt ctx authorizationCode redirectURI).run =
          ((some (restamped rt v), none),
           [Call.MakeRequest (userRequest d ctx authorizationCode redirectURI),
            Call.Unmarshal body, Call.Now]))
    ∧ (answers d (refreshRequest d ctx refreshToken redirectURI) (s, body, none) →
      ∀ v, rt.unmarshalUserToken body = .ok v →
        (d.RefreshUser rt ctx refreshToken redirectURI).run =
          ((some (restamped rt v), none),
           [Call.MakeRequest (refreshRequest d ctx refreshToken redirectURI),
            Call.Unmarshal body, Call.Now]))
    ∧ (answers d (devicesRequest ctx accessToken startDate endDate) (s, body, none) →
      ∀ v, rt.unmarshalDeviceResponse body = .ok v →
        (d.GetDevices rt ctx accessToken startDate endDate).run =
          ((some v, none),
           [Call.MakeRequest (devicesRequest ctx accessToken startDate endDate),
            Call.Unmarshal body]))
    ∧ (answers d (egvsRequest ctx accessToken startDate endDate) (s, body, none) →
      ∀ v, rt.unmarshalEGVResponse body = .ok v →
        (d.GetEGVs rt ctx accessToken startDate endDate).run =
          ((some v, none),
           [Call.MakeRequest (egvsRequest ctx accessToken startDate endDate),
            Call.Unmarshal body]))
    ∧ (answers d (eventsRequest ctx accessToken startDate endDate) (s, body, none) →
      ∀ v, rt.unmarshalEventResponse body = .ok v →
        (d.GetEvents rt ctx accessToken startDate endDate).run =
          ((some v, none),
           [Call.MakeRequest (eventsRequest ctx accessToken startDate endDate),
            Call.Unmarshal body]))
    ∧ (answers d (statisticsRequest ctx accessToken startDate endDate jsonBody) (s, body, none) →
      ∀ v, rt.unmarshalStatistics body = .ok v →
        (d.GetStatistics rt ctx accessToken startDate endDate stats).run =
          ((some v, none),
           [Call.ObjectToJSONReader stats, Call.MakeRequest (statisticsRequest ctx accessToken startDate endDate jsonBody),
            Call.Unmarshal body]))
    ∧ (∀ v : UserToken, (restamped rt v).AccessToken = v.AccessToken
      ∧ (restamped rt v).RefreshToken = v.RefreshToken
      ∧ (restamped rt v).ExpiresIn = v.ExpiresIn ∧ (restamped rt v).TokenType = v.TokenType) := by
  refine ⟨?_, ?_, ?_, ?_, ?_, ?_, fun _ => ⟨rfl, rfl, rfl, rfl⟩⟩
  · intro ht v hd
    rw [GetUser_run_of rt d ctx authorizationCode redirectURI _ ha ht, interpretReply_decoded _ _ s body v h1 h2 hd]
    rfl
  · intro ht v hd
    rw [RefreshUser_run_of rt d ctx refreshToken redirectURI _ hr ht, interpretReply_decoded _ _ s body v h1 h2 hd]
    rfl
  · intro ht v hd
    rw [GetDevices_run_of rt d ctx accessToken startDate endDate _ ht, interpretReply_decoded _ _ s body v h1 h2 hd]
  · intro ht v hd
    rw [GetEGVs_run_of rt d ctx accessToken startDate endDate _ ht, interpretReply_decoded _ _ s body v h1 h2 hd]
  · intro ht v hd
    rw [GetEvents_run_of rt d ctx accessToken startDate endDate _ ht, interpretReply_decoded _ _ s body v h1 h2 hd]
  · intro ht v hd
    rw [GetStatistics_run_of rt d ctx accessToken startDate endDate stats jsonBody _ hjson ht, interpretReply_decoded _ _ s body v h1 h2 hd]
    rfl

set_option maxRecDepth 8192 in
/-- Witness of C4: the "base path" of the tests for each of the six operations,
that of `GetDevices` with the value its body denotes. -/
theorem C4_2xx_returns_decoded_witness :
    ((testClient (testServer 200 testUserTokenBody)).GetUser (testRuntime testTime "\x7b\x7d")
        background "123" "abc").run.1
      = (some (restamped (testRuntime testTime "\x7b\x7d") testUserToken), none)
    ∧ ((testClient (testServer 200 testUserTokenBody)).RefreshUser
        (testRuntime testTime "\x7b\x7d") background "123" "abc").run.1
      = (some (restamped (testRuntime testTime "\x7b\x7d") testUserToken), none)
    ∧ ((testClient (testServer 200 testDevicesBody)).GetDevices
        (testRuntime testTime "\x7b\x7d") background "123" testTime testTime).run.1
      = (some testDevices, none)
    ∧ ((testClient (testServer 200 testEGVsBody)).GetEGVs
        (testRuntime testTime "\x7b\x7d") background "123" testTime testTime).run.1
      = (some testEGVs, none)
    ∧ ((testClient (testServer 200 testEventsBody)).GetEvents
        (testRuntime testTime "\x7b\x7d") background "123" testTime testTime).run.1
      = (some testEvents, none)
    ∧ ((testClient (testServer 200 testStatisticsBody)).GetStatistics
        (testRuntime testTime "\x7b\x7d") background "123" testTime testTime
        (testStats testTime)).run.1 = (some testStatistics, none) :=
  ⟨congrArg Prod.fst ((C4_2xx_returns_decoded (testRuntime testTime "\x7b\x7d")
      (testClient (testServer 200 testUserTokenBody)) background "123" "123" "abc" "123"
      testTime testTime (testStats testTime) (some "\x7b\x7d") 200 testUserTokenBody
      (by decide) (by decide) (by decide) (by decide) rfl).1 rfl testUserToken rfl),
   congrArg Prod.fst ((C4_2xx_returns_decoded (testRuntime testTime "\x7b\x7d")
      (testClient (testServer 200 testUserTokenBody)) background "123" "123" "abc" "123"
      testTime testTime (testStats testTime) (some "\x7b\x7d") 200 testUserTokenBody
      (by decide) (by decide) (by decide) (by decide) rfl).2.1 rfl testUserToken rfl),
   congrArg Prod.fst ((C4_2xx_returns_decoded (testRuntime testTime "\x7b\x7d")
      (testClient (testServer 200 testDevicesBody)) background "123" "123" "abc" "123"
      testTime testTime (testStats testTime) (some "\x7b\x7d") 200 testDevicesBody
      (by decide) (by decide) (by decide) (by decide) rfl).2.2.1 rfl testDevices rfl),
   congrArg Prod.fst ((C4_2xx_returns_decoded (testRuntime testTime "\x7b\x7d")
      (testClient (testServer 200 testEGVsBody)) background "123" "123" "abc" "123"
      testTime testTime (testStats testTime) (some "\x7b\x7d") 200 testEGVsBody
      (by decide) (by decide) (by decide) (by decide) rfl).2.2.2.1 rfl testEGVs rfl),
   congrArg Prod.fst ((C4_2xx_returns_decoded (testRuntime testTime "\x7b\x7d")
      (testClient (testServer 200 testEventsBody)) background "123" "123" "abc" "123"
      testTime testTime (testStats testTime) (some "\x7b\x7d") 200 testEventsBody
      (by decide) (by decide) (by decide) (by decide) rfl).2.2.2.2.1 rfl testEvents rfl),
   congrArg Prod.fst ((C4_2xx_returns_decoded (testRuntime testTime "\x7b\x7d")
      (testClient (testServer 200 testStatisticsBody)) background "123" "123" "abc" "123"
      testTime testTime (testStats testTime) (some "\x7b\x7d") 200 testStatisticsBody
      (by decide) (by decide) (by decide) (by decide) rfl).2.2.2.2.2.1 rfl testStatistics rfl)⟩

/-- C5: for each of the six operations, when the transport answers the
operation's request with a status code `s` in 200..299 and a body on which
decoding fails with `err`, the operation returns no result and the error with
code `ERROR_JSON`, message `Could not unmarshal response with code <s> | <err>`
and inner error `err`, and makes no call after the decode attempt. -/
theorem C5_decode_failure_is_json_error (rt : Runtime) (d : dexcomClient) (ctx : Context)
    (authorizationCode refreshToken redirectURI accessToken : String) (startDate endDate : Time)
    (stats : Stats) (jsonBody : Option String) (s : Int) (body : String)
    (h1 : 200 ≤ s) (h2 : s < 300) (ha : authorizationCode ≠ "") (hr : refreshToken ≠ "")
    (hjson : rt.objectToJSONReader stats = (jsonBody, none)) :
    (answers d (userRequest d ctx authorizationCode redirectURI) (s, body, none) →
      ∀ err, rt.unmarshalUserToken body = .error err →
        (d.GetUser rt ctx authorizationCode redirectURI).run =
          ((none, some (jsonError s err)),
           [Call.MakeRequest (userRequest d ctx authorizationCode redirectURI),
            Call.Unmarshal body]))
    ∧ (answers d (refreshRequest d ctx refreshToken redirectURI) (s, body, none) →
      ∀ err, rt.unmarshalUserToken body = .error err →
        (d.RefreshUser rt ctx refreshToken redirectURI).run =
          ((none, some (jsonError s err)),
           [Call.MakeRequest (refreshRequest d ctx refreshToken redirectURI),
            Call.Unmarshal body]))
    ∧ (answers d (devicesRequest ctx accessToken startDate endDate) (s, body, none) →
      ∀ err, rt.unmarshalDeviceResponse body = .error err →
        (d.GetDevices rt ctx accessToken startDate endDate).run =
          ((none, some (jsonError s err)),
           [Call.MakeRequest (devicesRequest ctx accessToken startDate endDate),
            Call.Unmarshal body]))
    ∧ (answers d (egvsRequest ctx accessToken startDate endDate) (s, body, none) →
      ∀ err, rt.unmarshalEGVResponse body = .error err →
        (d.GetEGVs rt ctx accessToken startDate endDate).run =
          ((none, some (jsonError s err)),
           [Call.MakeRequest (egvsRequest ctx accessToken startDate endDate),
            Call.Unmarshal body]))
    ∧ (answers d (eventsRequest ctx accessToken startDate endDate) (s, body, none) →
      ∀ err, rt.unmarshalEventResponse body = .error err →
        (d.GetEvents rt ctx accessToken startDate endDate).run =
          ((none, some (jsonError s err)),
           [Call.MakeRequest (eventsRequest ctx accessToken startDate endDate),
            Call.Unmarshal body]))
    ∧ (answers d (statisticsRequest ctx accessToken startDate endDate jsonBody) (s, body, none) →
      ∀ err, rt.unmarshalStatistics body = .error err →
        (d.GetStatistics rt ctx accessToken startDate endDate stats).run =
          ((none, some (jsonError s err)),
           [Call.ObjectToJSONReader stats, Call.MakeRequest (statisticsRequest ctx accessToken startDate endDate jsonBody),
            Call.Unmarshal body])) := by
  refine ⟨?_, ?_, ?_, ?_, ?_, ?_⟩
  · intro ht err hd
    rw [GetUser_run_of rt d ctx authorizationCode redirectURI _ ha ht, interpretReply_jsonError _ _ s body err h1 h2 hd]
    rfl
  · intro ht err hd
    rw [RefreshUser_run_of rt d ctx refreshToken redirectURI _ hr ht, interpretReply_jsonError _ _ s body err h1 h2 hd]
    rfl
  · intro ht err hd
    rw [GetDevices_run_of rt d ctx accessToken startDate endDate _ ht, interpretReply_jsonError _ _ s body err h1 h2 hd]
  · intro ht err hd
    rw [GetEGVs_run_of rt d ctx accessToken startDate endDate _ ht, interpretReply_jsonError _ _ s body err h1 h2 hd]
  · intro ht err hd
    rw [GetEvents_run_of rt d ctx accessToken startDate endDate _ ht, interpretReply_jsonError _ _ s body err h1 h2 hd]
  · intro ht err hd
    rw [GetStatistics_run_of rt d ctx accessToken startDate endDate stats jsonBody _ hjson ht, interpretReply_jsonError _ _ s body err h1 h2 hd]
    rfl

/-- Witness of C5: a server that answers 200 with an empty body, on which the
decoder fails, for each of the six operations. -/
theorem C5_decode_failure_is_json_error_witness :
    jsonError 200 { text := "unexpected end of JSON input" } =
      { inner := some { text := "unexpected end of JSON input" },
        code := "ERROR_JSON",
        msg := "Could not unmarshal response with code 200 | unexpected end of JSON input" }
    ∧ ((testClient (testServer 200 "")).GetUser (testRuntime testTime "\x7b\x7d") background
        "123" "abc").run.1
      = (none, some (jsonError 200 { text := "unexpected end of JSON input" }))
    ∧ ((testClient (testServer 200 "")).RefreshUser (testRuntime testTime "\x7b\x7d")
        background "123" "abc").run.1
      = (none, some (jsonError 200 { text := "unexpected end of JSON input" }))
    ∧ ((testClient (testServer 200 "")).GetDevices (testRuntime testTime "\x7b\x7d")
        background "123" testTime testTime).run.1
      = (none, some (jsonError 200 { text := "unexpected end of JSON input" }))
    ∧ ((testClient (testServer 200 "")).GetEGVs (testRuntime testTime "\x7b\x7d") background
        "123" testTime testTime).run.1
      = (none, some (jsonError 200 { text := "unexpected end of JSON input" }))
    ∧ ((testClient (testServer 200 "")).GetEvents (testRuntime testTime "\x7b\x7d")
        background "123" testTime testTime).run.1
      = (none, some (jsonError 200 { text := "unexpected end of JSON input" }))
    ∧ ((testClient (testServer 200 "")).GetStatistics (testRuntime testTime "\x7b\x7d")
        background "123" testTime testTime (testStats testTime)).run.1
      = (none, some (jsonError 200 { text := "unexpected end of JSON input" })) :=
  have w := C5_decode_failure_is_json_error (testRuntime testTime "\x7b\x7d")
    (testClient (testServer 200 "")) background "123" "123" "abc" "123" testTime testTime
    (testStats testTime) (some "\x7b\x7d") 200 "" (by decide) (by decide) (by decide)
    (by decide) rfl
  ⟨by decide, congrArg Prod.fst (w.1 rfl _ rfl), congrArg Prod.fst (w.2.1 rfl _ rfl),
    congrArg Prod.fst (w.2.2.1 rfl _ rfl), congrArg Prod.fst (w.2.2.2.1 rfl _ rfl),
    congrArg Prod.fst (w.2.2.2.2.1 rfl _ rfl), congrArg Prod.fst (w.2.2.2.2.2 rfl _ rfl)⟩

/-- C6, the claim as stated fails: for a token response with `expires_in`
9223372042, answered with status 200 when the clock reads `testTime`, `GetUser`
returns the token with an expiry time, but that time is the clock reading minus
9223372036709551616 nanoseconds, not the clock reading plus `9223372042 - 5`
seconds: the product with `time.Second` has left the 64 bits of a
`time.Duration`. -/
theorem C6_expiry_wraps_for_long_lifetime :
    ∃ tok, ((testClient (testServer 200 longLivedTokenBody)).GetUser (longLivedRuntime testTime)
          background "123" "abc").run.1 = (some tok, none)
      ∧ tok.ExpiresIn = 9223372042
      ∧ tok.ExpireTime.map Time.unixNano = some (testTime.unixNano - 9223372036709551616)
      ∧ tok.ExpireTime.map Time.unixNano ≠
          some (testTime.unixNano + (9223372042 - 5) * 1000000000) :=
  ⟨_, rfl, rfl, by decide, by decide⟩

/-- C6, amended: for every successful token exchange (`GetUser` or
`RefreshUser`: the transport answers the request with a status in 200..299 and
a body that decodes to a token with `expires_in` `n`), the clock is read once,
after the decoding, the returned token's `ExpireTime` is set, and when
`-9223372031 ≤ n ≤ 9223372041` it is the reading `t` of the clock plus exactly
`n - 5` seconds. -/
theorem C6_expiry_time (rt : Runtime) (d : dexcomClient) (ctx : Context)
    (authorizationCode refreshToken redirectURI : String) (s : Int) (body : String)
    (h1 : 200 ≤ s) (h2 : s < 300) (ha : authorizationCode ≠ "") (hr : refreshToken ≠ "") :
    (answers d (userRequest d ctx authorizationCode redirectURI) (s, body, none) →
      ∀ v, rt.unmarshalUserToken body = .ok v →
        ∃ tok, (d.GetUser rt ctx authorizationCode redirectURI).run =
            ((some tok, none),
             [Call.MakeRequest (userRequest d ctx authorizationCode redirectURI),
              Call.Unmarshal body, Call.Now])
          ∧ expiryStamped rt v tok)
    ∧ (answers d (refreshRequest d ctx refreshToken redirectURI) (s, body, none) →
      ∀ v, rt.unmarshalUserToken body = .ok v →
        ∃ tok, (d.RefreshUser rt ctx refreshToken redirectURI).run =
            ((some tok, none),
             [Call.MakeRequest (refreshRequest d ctx refreshToken redirectURI),
              Call.Unmarshal body, Call.Now])
          ∧ expiryStamped rt v tok) := by
  have stamp : ∀ v : UserToken, expiryStamped rt v (restamped rt v) := by
    intro v
    refine ⟨by simp [restamped], ?_⟩
    intro hlo hhi
    simp only [restamped]
    rw [expiry_duration_exact v.ExpiresIn hlo hhi]
    rfl
  refine ⟨?_, ?_⟩
  · intro ht v hd
    rw [GetUser_run_of rt d ctx authorizationCode redirectURI _ ha ht, interpretReply_decoded _ _ s body v h1 h2 hd]
    exact ⟨_, rfl, stamp v⟩
  · intro ht v hd
    rw [RefreshUser_run_of rt d ctx refreshToken redirectURI _ hr ht, interpretReply_decoded _ _ s body v h1 h2 hd]
    exact ⟨_, rfl, stamp v⟩

/-- Witness of C6: the "base path" of `TestUnit_GetUser` and of
`TestUnit_RefreshUser`, `expires_in` 600 with the clock at `testTime`: the
expiry time is 595 seconds later. -/
theorem C6_expiry_time_witness :
    (∃ tok, ((testClient (testServer 200 testUserTokenBody)).GetUser (testRuntime testTime "")
          background "123" "abc").run.1 = (some tok, none)
      ∧ tok.ExpireTime.map Time.unixNano = some (testTime.unixNano + 595 * 1000000000))
    ∧ (∃ tok, ((testClient (testServer 200 testUserTokenBody)).RefreshUser
          (testRuntime testTime "") background "123" "abc").run.1 = (some tok, none)
      ∧ tok.ExpireTime.map Time.unixNano = some (testTime.unixNano + 595 * 1000000000)) :=
  have w := C6_expiry_time (testRuntime testTime "")
    (testClient (testServer 200 testUserTokenBody)) background "123" "123" "abc" 200
    testUserTokenBody (by decide) (by decide) (by decide) (by decide)
  ⟨(w.1 rfl testUserToken rfl).elim fun tok h =>
      ⟨tok, congrArg Prod.fst h.1, by rw [h.2.2 (by decide) (by decide)]; rfl⟩,
   (w.2 rfl testUserToken rfl).elim fun tok h =>
      ⟨tok, congrArg Prod.fst h.1, by rw [h.2.2 (by decide) (by decide)]; rfl⟩⟩

/-- C7: for every client id, client secret, redirect URI and non-empty
credential, the body of the one request of `GetUser` is the encoding of the
form with exactly the keys `client_id`, `client_secret`, `redirect_uri`, `code`
and `grant_type` (no `refresh_token`), one value each: the configured id and
secret, the supplied URI and code, and `authorization_code`; that of
`RefreshUser` has `refresh_token` and `grant_type=refresh_token` in place of
`code` (no `code`). On the wire these are the pairs `key=value`, sorted by
key, the values escaped, joined by `&`; an escaped value contains no `&` and no
`=`, so the body holds these five pairs and no other. -/
theorem C7_token_form (rt : Runtime) (d : dexcomClient) (ctx : Context)
    (credential redirectURI : String) (h : credential ≠ "") :
    (∃ r, requestsOf (d.GetUser rt ctx credential redirectURI).run.2 = [r]
      ∧ r.body = some (Values.Encode
          [("client_id", [d.clientID]), ("client_secret", [d.clientSecret]),
           ("redirect_uri", [redirectURI]), ("code", [credential]),
           ("grant_type", ["authorization_code"])])
      ∧ r.body = some ("&".intercalate
          ["client_id=" ++ QueryEscape d.clientID,
           "client_secret=" ++ QueryEscape d.clientSecret,
           "code=" ++ QueryEscape credential,
           "grant_type=authorization_code",
           "redirect_uri=" ++ QueryEscape redirectURI]))
    ∧ (∃ r, requestsOf (d.RefreshUser rt ctx credential redirectURI).run.2 = [r]
      ∧ r.body = some (Values.Encode
          [("client_id", [d.clientID]), ("client_secret", [d.clientSecret]),
           ("redirect_uri", [redirectURI]), ("refresh_token", [credential]),
           ("grant_type", ["refresh_token"])])
      ∧ r.body = some ("&".intercalate
          ["client_id=" ++ QueryEscape d.clientID,
           "client_secret=" ++ QueryEscape d.clientSecret,
           "grant_type=refresh_token",
           "redirect_uri=" ++ QueryEscape redirectURI,
           "refresh_token=" ++ QueryEscape credential]))
    ∧ (∀ (v : String) (x : Char), x ∈ (QueryEscape v).toList → x ≠ '&' ∧ x ≠ '=') := by
  refine ⟨⟨_, requestsOf_GetUser rt d ctx credential redirectURI h, rfl, rfl⟩,
    ⟨_, requestsOf_RefreshUser rt d ctx credential redirectURI h, rfl, rfl⟩,
    fun v x hx => QueryEscape_ne_sep v x hx⟩

/-- Witness of C7: the client of the tests (id `123`, secret `abc`) exchanging
the code `123` with the redirect URI `http://localhost/cb`. -/
theorem C7_token_form_witness :
    ∃ r, requestsOf ((testClient (testServer 200 testUserTokenBody)).GetUser
        (testRuntime testTime "") background "123" "http://localhost/cb").run.2 = [r]
      ∧ r.body = some ("client_id=123&client_secret=abc&code=123&" ++
          "grant_type=authorization_code&redirect_uri=http%3A%2F%2Flocalhost%2Fcb") :=
  (C7_token_form (testRuntime testTime "") (testClient (testServer 200 testUserTokenBody))
    background "123" "http://localhost/cb" (by decide)).1.elim fun r hr => ⟨r, hr.1, hr.2.2⟩

/-- C8, the claim as stated fails: for the instant 10000-01-01T00:00:00Z the
query parameters of `GetDevices` are the 20 characters `10000-01-01T00:00:00`,
not a 19-character text. -/
theorem C8_year_10000_takes_20_characters :
    (requestsOf ((testClient (testServer 200 "")).GetDevices (testRuntime testTime "")
        background "123" year10000 year10000).run.2).map Request.query =
      [some [("startDate", ["10000-01-01T00:00:00"]), ("endDate", ["10000-01-01T00:00:00"])]]
    ∧ "10000-01-01T00:00:00".length ≠ 19 :=
  ⟨rfl, by decide⟩

/-- C8, amended: `GetDevices`, `GetEGVs`, `GetEvents` and `GetStatistics` each
make one request whose query is `startDate` and `endDate` formatted in UTC
with the layout `timeformat`, and a call whose timestamps denote the same
instants, in whatever locations, sends the same query, for all instants; for
instants from 0000-01-01T00:00:00Z up to, not including, 10000-01-01T00:00:00Z
the two values are the 19 characters `YYYY-MM-DDTHH:MM:SS` of the instant's UTC
calendar fields, each field fitting its digits. -/
theorem C8_dates_formatted_in_utc (rt : Runtime) (d : dexcomClient) (ctx : Context)
    (accessToken : String) (startDate endDate otherStart otherEnd : Time) (stats : Stats)
    (jsonBody : Option String)
    (hjson : rt.objectToJSONReader stats = (jsonBody, none))
    (hos : otherStart.unixNano = startDate.unixNano)
    (hoe : otherEnd.unixNano = endDate.unixNano) :
    (queriesOf (d.GetDevices rt ctx accessToken startDate endDate).run
        = [formattedQuery startDate endDate]
      ∧ queriesOf (d.GetDevices rt ctx accessToken otherStart otherEnd).run
        = [formattedQuery startDate endDate])
    ∧ (queriesOf (d.GetEGVs rt ctx accessToken startDate endDate).run
        = [formattedQuery startDate endDate]
      ∧ queriesOf (d.GetEGVs rt ctx accessToken otherStart otherEnd).run
        = [formattedQuery startDate endDate])
    ∧ (queriesOf (d.GetEvents rt ctx accessToken startDate endDate).run
        = [formattedQuery startDate endDate]
      ∧ queriesOf (d.GetEvents rt ctx accessToken otherStart otherEnd).run
        = [formattedQuery startDate endDate])
    ∧ (queriesOf (d.GetStatistics rt ctx accessToken startDate endDate stats).run
        = [formattedQuery startDate endDate]
      ∧ queriesOf (d.GetStatistics rt ctx accessToken otherStart otherEnd stats).run
        = [formattedQuery startDate endDate])
    ∧ (fourDigitYear startDate → fourDigitYear endDate →
      formattedQuery startDate endDate = dateRangeQuery startDate endDate
      ∧ (isoSeconds (utcDate startDate) (utcClock startDate)).length = 19
      ∧ (isoSeconds (utcDate endDate) (utcClock endDate)).length = 19
      ∧ fieldsFit startDate ∧ fieldsFit endDate) := by
  have hc := fun (method slug : String) (body : Option String) =>
    dataRequest_query_congr ctx method slug accessToken startDate endDate otherStart otherEnd body
      hos hoe
  refine ⟨?_, ?_, ?_, ?_, ?_⟩
  · constructor
    · unfold queriesOf
      rw [GetDevices_run, requestsOf_interpretReply]
      rfl
    · unfold queriesOf
      rw [GetDevices_run, requestsOf_interpretReply]
      exact congrArg (fun q => [q]) (hc _ _ _)
  · constructor
    · unfold queriesOf
      rw [GetEGVs_run, requestsOf_interpretReply]
      rfl
    · unfold queriesOf
      rw [GetEGVs_run, requestsOf_interpretReply]
      exact congrArg (fun q => [q]) (hc _ _ _)
  · constructor
    · unfold queriesOf
      rw [GetEvents_run, requestsOf_interpretReply]
      rfl
    · unfold queriesOf
      rw [GetEvents_run, requestsOf_interpretReply]
      exact congrArg (fun q => [q]) (hc _ _ _)
  · constructor
    · unfold queriesOf
      rw [GetStatistics_run rt d ctx accessToken startDate endDate stats jsonBody hjson]
      simp only [prependCall, requestsOf, requestsOf_interpretReply]
      rfl
    · unfold queriesOf
      rw [GetStatistics_run rt d ctx accessToken otherStart otherEnd stats jsonBody hjson]
      simp only [prependCall, requestsOf, requestsOf_interpretReply]
      exact congrArg (fun q => [q]) (hc _ _ _)
  · intro hs he
    refine ⟨?_, rfl, rfl, fieldsFit_of_range _ hs.1 hs.2, fieldsFit_of_range _ he.1 he.2⟩
    simp only [formattedQuery, dateRangeQuery, Format_UTC_eq startDate hs.1 hs.2,
      Format_UTC_eq endDate he.1 he.2]

/-- Witness of C8: the four operations for 2017-06-16T19:45:00Z, given once in
a zone two hours east of UTC and once in UTC. -/
theorem C8_dates_formatted_in_utc_witness :
    formattedQuery testTime testTime =
      some [("startDate", ["2017-06-16T19:45:00"]), ("endDate", ["2017-06-16T19:45:00"])]
    ∧ queriesOf ((testClient (testServer 200 "")).GetDevices (testRuntime testTime "\x7b\x7d")
        background "123" testTime testTime).run = [formattedQuery testTime testTime]
    ∧ queriesOf ((testClient (testServer 200 "")).GetDevices (testRuntime testTime "\x7b\x7d")
        background "123" testTimeUTC testTimeUTC).run = [formattedQuery testTime testTime]
    ∧ queriesOf ((testClient (testServer 200 "")).GetEGVs (testRuntime testTime "\x7b\x7d")
        background "123" testTimeUTC testTimeUTC).run = [formattedQuery testTime testTime]
    ∧ queriesOf ((testClient (testServer 200 "")).GetEvents (testRuntime testTime "\x7b\x7d")
        background "123" testTimeUTC testTimeUTC).run = [formattedQuery testTime testTime]
    ∧ queriesOf ((testClient (testServer 200 "")).GetStatistics
        (testRuntime testTime "\x7b\x7d") background "123" testTimeUTC testTimeUTC
        (testStats testTime)).run = [formattedQuery testTime testTime] :=
  have w := C8_dates_formatted_in_utc (testRuntime testTime "\x7b\x7d")
    (testClient (testServer 200 "")) background "123" testTime testTime testTimeUTC testTimeUTC
    (testStats testTime) (some "\x7b\x7d") rfl rfl rfl
  ⟨(w.2.2.2.2 ⟨by decide, by decide⟩ ⟨by decide, by decide⟩).1, w.1.1, w.1.2, w.2.1.2, w.2.2.1.2, w.2.2.2.1.2⟩

/-- C9: for every access token and date range, `GetDevices`, `GetEGVs` and
`GetEvents` hand the transport exactly one request: `GET` on
`/v1/users/self/devices`, `/v1/users/self/egvs`, `/v1/users/self/events`, no
body; `GetStatistics`, when the serialiser returns `jsonBody` without error,
hands it `POST` on `/v1/users/self/statistics` with `jsonBody` as body. In all
four the only header is `Authorization: Bearer <accessToken>` and the query
parameters are `startDate` and `endDate`, one value each. -/
theorem C9_data_requests (rt : Runtime) (d : dexcomClient) (ctx : Context) (accessToken : String)
    (startDate endDate : Time) (stats : Stats) (jsonBody : Option String)
    (hjson : rt.objectToJSONReader stats = (jsonBody, none)) :
    requestsOf (d.GetDevices rt ctx accessToken startDate endDate).run.2 =
      [{ ctx := ctx, method := "GET", slug := "/v1/users/self/devices",
         query := some [("startDate", [startDate.UTC.Format timeformat]),
                        ("endDate", [endDate.UTC.Format timeformat])],
         headers := [("Authorization", ["Bearer " ++ accessToken])],
         body := none }]
    ∧ requestsOf (d.GetEGVs rt ctx accessToken startDate endDate).run.2 =
      [{ ctx := ctx, method := "GET", slug := "/v1/users/self/egvs",
         query := some [("startDate", [startDate.UTC.Format timeformat]),
                        ("endDate", [endDate.UTC.Format timeformat])],
         headers := [("Authorization", ["Bearer " ++ accessToken])],
         body := none }]
    ∧ requestsOf (d.GetEvents rt ctx accessToken startDate endDate).run.2 =
      [{ ctx := ctx, method := "GET", slug := "/v1/users/self/events",
         query := some [("startDate", [startDate.UTC.Format timeformat]),
                        ("endDate", [endDate.UTC.Format timeformat])],
         headers := [("Authorization", ["Bearer " ++ accessToken])],
         body := none }]
    ∧ requestsOf (d.GetStatistics rt ctx accessToken startDate endDate stats).run.2 =
      [{ ctx := ctx, method := "POST", slug := "/v1/users/self/statistics",
         query := some [("startDate", [startDate.UTC.Format timeformat]),
                        ("endDate", [endDate.UTC.Format timeformat])],
         headers := [("Authorization", ["Bearer " ++ accessToken])],
         body := jsonBody }] := by
  refine ⟨?_, ?_, ?_, ?_⟩
  · rw [GetDevices_run, requestsOf_interpretReply]; rfl
  · rw [GetEGVs_run, requestsOf_interpretReply]; rfl
  · rw [GetEvents_run, requestsOf_interpretReply]; rfl
  · rw [GetStatistics_run rt d ctx accessToken startDate endDate stats jsonBody hjson]
    simp only [prependCall, requestsOf, requestsOf_interpretReply]
    rfl

/-- Witness of C9: the "base path" call of `TestUnit_GetStatistics`, with the
empty access token and a serialiser that yields an empty JSON object. -/
theorem C9_data_requests_witness :
    requestsOf ((testClient (testServer 200 testStatisticsBody)).GetStatistics
        (testRuntime testTime "\x7b\x7d") background "" testTime testTime
        (testStats testTime)).run.2 =
      [{ ctx := background, method := "POST", slug := "/v1/users/self/statistics",
         query := some [("startDate", ["2017-06-16T19:45:00"]),
                        ("endDate", ["2017-06-16T19:45:00"])],
         headers := [("Authorization", ["Bearer "])],
         body := some "\x7b\x7d" }] :=
  (C9_data_requests (testRuntime testTime "\x7b\x7d")
    (testClient (testServer 200 testStatisticsBody)) background "" testTime testTime
    (testStats testTime) (some "\x7b\x7d") rfl).2.2.2

/-- C10 at the call of the tests, `GetUser("123", "abc")`: the request handed to
the transport is a `POST` without query parameters and with exactly the headers
`Content-Type: application/x-www-form-urlencoded` and `Cache-Control: no-cache`,
but its path is `v1/oauth2/token`, without the leading slash that the paths of
the data endpoints (here `GetDevices`) have. -/
theorem C10_token_path_lacks_leading_slash :
    (∃ r, requestsOf ((testClient (testServer 200 testUserTokenBody)).GetUser
          (testRuntime testTime "") background "123" "abc").run.2 = [r]
        ∧ r.method = "POST" ∧ r.query = none
        ∧ r.headers = [("Content-Type", ["application/x-www-form-urlencoded"]),
                       ("Cache-Control", ["no-cache"])]
        ∧ r.slug = "v1/oauth2/token" ∧ r.slug ≠ "/v1/oauth2/token"
        ∧ r.slug.toList.head? = some 'v')
    ∧ (∃ r, requestsOf ((testClient (testServer 200 testUserTokenBody)).GetDevices
          (testRuntime testTime "") background "123" testTime testTime).run.2 = [r]
        ∧ r.slug = "/v1/users/self/devices" ∧ r.slug.toList.head? = some '/') :=
  ⟨⟨_, rfl, rfl, rfl, rfl, rfl, by decide, rfl⟩, ⟨_, rfl, rfl, rfl⟩⟩

/-- C11: for each of the six operations, every input and every behaviour of
the transport, the decoder, the serialiser and the clock, the returned pair has
a result exactly when it has no error: never both, never neither. -/
theorem C11_result_iff_no_error (rt : Runtime) (d : dexcomClient) (ctx : Context)
    (authorizationCode refreshToken redirectURI accessToken : String) (startDate endDate : Time)
    (stats : Stats) :
    ((d.GetUser rt ctx authorizationCode redirectURI).run.1.1 ≠ none
      ↔ (d.GetUser rt ctx authorizationCode redirectURI).run.1.2 = none)
    ∧ ((d.RefreshUser rt ctx refreshToken redirectURI).run.1.1 ≠ none
      ↔ (d.RefreshUser rt ctx refreshToken redirectURI).run.1.2 = none)
    ∧ ((d.GetDevices rt ctx accessToken startDate endDate).run.1.1 ≠ none
      ↔ (d.GetDevices rt ctx accessToken startDate endDate).run.1.2 = none)
    ∧ ((d.GetEGVs rt ctx accessToken startDate endDate).run.1.1 ≠ none
      ↔ (d.GetEGVs rt ctx accessToken startDate endDate).run.1.2 = none)
    ∧ ((d.GetEvents rt ctx accessToken startDate endDate).run.1.1 ≠ none
      ↔ (d.GetEvents rt ctx accessToken startDate endDate).run.1.2 = none)
    ∧ ((d.GetStatistics rt ctx accessToken startDate endDate stats).run.1.1 ≠ none
      ↔ (d.GetStatistics rt ctx accessToken startDate endDate stats).run.1.2 = none) := by
  have tok : ∀ r : Request,
      (stampExpiry rt (interpretReply rt.unmarshalUserToken r (d.c.transport r))).1.1 ≠ none
      ↔ (stampExpiry rt (interpretReply rt.unmarshalUserToken r (d.c.transport r))).1.2 = none := by
    intro r
    rw [stampExpiry_fst, withExpiry_iff, interpretReply_fst]
    exact responseInterpreter_iff _ _
  refine ⟨?_, ?_, ?_, ?_, ?_, ?_⟩
  · rw [GetUser_run]
    by_cases h : authorizationCode = ""
    · simp [h]
    · simp only [h, if_false]; exact tok _
  · rw [RefreshUser_run]
    by_cases h : refreshToken = ""
    · simp [h]
    · simp only [h, if_false]; exact tok _
  · rw [GetDevices_run, interpretReply_fst]; exact responseInterpreter_iff _ _
  · rw [GetEGVs_run, interpretReply_fst]; exact responseInterpreter_iff _ _
  · rw [GetEvents_run, interpretReply_fst]; exact responseInterpreter_iff _ _
  · rw [GetStatistics_run_cases]
    cases (rt.objectToJSONReader stats).2 with
    | some e => simp
    | none =>
      simp only [prependCall]
      rw [interpretReply_fst]; exact responseInterpreter_iff _ _

/-- C12: one interpretation function, `responseInterpreter`, of the transport's
reply (error or not, status code, body) and the decoder gives what each of the
six operations returns once its request has been dispatched: each makes one
request and returns exactly what the function returns for the transport's
reply to it, the same result or the same error, code and message included; the
token exchange returns it with the expiry time stamped on a success, and
differs in nothing else. -/
theorem C12_one_interpreter (rt : Runtime) (d : dexcomClient) (ctx : Context)
    (authorizationCode refreshToken redirectURI accessToken : String) (startDate endDate : Time)
    (stats : Stats) (jsonBody : Option String)
    (ha : authorizationCode ≠ "") (hr : refreshToken ≠ "")
    (hjson : rt.objectToJSONReader stats = (jsonBody, none)) :
    ((d.GetUser rt ctx authorizationCode redirectURI).run.1
        = withExpiry rt (responseInterpreter rt.unmarshalUserToken
            (d.c.transport (userRequest d ctx authorizationCode redirectURI)))
      ∧ requestsOf (d.GetUser rt ctx authorizationCode redirectURI).run.2
        = [userRequest d ctx authorizationCode redirectURI])
    ∧ ((d.RefreshUser rt ctx refreshToken redirectURI).run.1
        = withExpiry rt (responseInterpreter rt.unmarshalUserToken
            (d.c.transport (refreshRequest d ctx refreshToken redirectURI)))
      ∧ requestsOf (d.RefreshUser rt ctx refreshToken redirectURI).run.2
        = [refreshRequest d ctx refreshToken redirectURI])
    ∧ ((d.GetDevices rt ctx accessToken startDate endDate).run.1
        = responseInterpreter rt.unmarshalDeviceResponse
          (d.c.transport (devicesRequest ctx accessToken startDate endDate))
      ∧ requestsOf (d.GetDevices rt ctx accessToken startDate endDate).run.2
        = [devicesRequest ctx accessToken startDate endDate])
    ∧ ((d.GetEGVs rt ctx accessToken startDate endDate).run.1
        = responseInterpreter rt.unmarshalEGVResponse
          (d.c.transport (egvsRequest ctx accessToken startDate endDate))
      ∧ requestsOf (d.GetEGVs rt ctx accessToken startDate endDate).run.2
        = [egvsRequest ctx accessToken startDate endDate])
    ∧ ((d.GetEvents rt ctx accessToken startDate endDate).run.1
        = responseInterpreter rt.unmarshalEventResponse
          (d.c.transport (eventsRequest ctx accessToken startDate endDate))
      ∧ requestsOf (d.GetEvents rt ctx accessToken startDate endDate).run.2
        = [eventsRequest ctx accessToken startDate endDate])
    ∧ ((d.GetStatistics rt ctx accessToken startDate endDate stats).run.1
        = responseInterpreter rt.unmarshalStatistics
          (d.c.transport (statisticsRequest ctx accessToken startDate endDate jsonBody))
      ∧ requestsOf (d.GetStatistics rt ctx accessToken startDate endDate stats).run.2
        = [statisticsRequest ctx accessToken startDate endDate jsonBody]) := by
  refine ⟨?_, ?_, ?_, ?_, ?_, ?_⟩
  · rw [GetUser_run_of rt d ctx authorizationCode redirectURI _ ha rfl]
    exact ⟨by rw [stampExpiry_fst, interpretReply_fst],
      by rw [requestsOf_stampExpiry, requestsOf_interpretReply]⟩
  · rw [RefreshUser_run_of rt d ctx refreshToken redirectURI _ hr rfl]
    exact ⟨by rw [stampExpiry_fst, interpretReply_fst],
      by rw [requestsOf_stampExpiry, requestsOf_interpretReply]⟩
  · rw [GetDevices_run_of rt d ctx accessToken startDate endDate _ rfl]
    exact ⟨interpretReply_fst _ _ _, requestsOf_interpretReply _ _ _⟩
  · rw [GetEGVs_run_of rt d ctx accessToken startDate endDate _ rfl]
    exact ⟨interpretReply_fst _ _ _, requestsOf_interpretReply _ _ _⟩
  · rw [GetEvents_run_of rt d ctx accessToken startDate endDate _ rfl]
    exact ⟨interpretReply_fst _ _ _, requestsOf_interpretReply _ _ _⟩
  · rw [GetStatistics_run_of rt d ctx accessToken startDate endDate stats jsonBody _ hjson rfl]
    exact ⟨interpretReply_fst _ _ _,
      by simp only [prependCall, requestsOf, requestsOf_interpretReply]⟩

/-- Witness of C12: the "exceptional path" of `TestUnit_GetEvents` and the
"base path" of `TestUnit_GetUser` and `TestUnit_RefreshUser` are what the
interpreter returns for the replies of their servers. -/
theorem C12_one_interpreter_witness :
    ((testClient (testServer 400 "invalid_request")).GetEvents (testRuntime testTime "\x7b\x7d")
        background "123" testTime testTime).run.1 =
      responseInterpreter (testRuntime testTime "\x7b\x7d").unmarshalEventResponse
        (400, "invalid_request", none)
    ∧ ((testClient (testServer 200 testUserTokenBody)).GetUser (testRuntime testTime "\x7b\x7d")
        background "123" "abc").run.1 =
      withExpiry (testRuntime testTime "\x7b\x7d")
        (responseInterpreter (testRuntime testTime "\x7b\x7d").unmarshalUserToken
          (200, testUserTokenBody, none))
    ∧ ((testClient (testServer 200 testUserTokenBody)).RefreshUser
        (testRuntime testTime "\x7b\x7d") background "123" "abc").run.1 =
      withExpiry (testRuntime testTime "\x7b\x7d")
        (responseInterpreter (testRuntime testTime "\x7b\x7d").unmarshalUserToken
          (200, testUserTokenBody, none)) :=
  ⟨(C12_one_interpreter (testRuntime testTime "\x7b\x7d")
      (testClient (testServer 400 "invalid_request")) background "123" "123" "abc" "123" testTime
      testTime (testStats testTime) (some "\x7b\x7d") (by decide) (by decide)
      rfl).2.2.2.2.1.1,
   (C12_one_interpreter (testRuntime testTime "\x7b\x7d")
      (testClient (testServer 200 testUserTokenBody)) background "123" "123" "abc" "123" testTime
      testTime (testStats testTime) (some "\x7b\x7d") (by decide) (by decide) rfl).1.1,
   (C12_one_interpreter (testRuntime testTime "\x7b\x7d")
      (testClient (testServer 200 testUserTokenBody)) background "123" "123" "abc" "123" testTime
      testTime (testStats testTime) (some "\x7b\x7d") (by decide) (by decide) rfl).2.1.1⟩

/-- C13, the claim as stated fails: the reading of the test decoded without a
`status` member and decoded with `"status": null` is one and the same record,
the `expectedResponse` of the test, so the omitted and the null field are not
distinguishable after decoding. -/
theorem C13_absent_and_null_decode_alike :
    unmarshalEGV (.object (testEGVHead ++ testEGVTail)) = .ok testEGV
    ∧ unmarshalEGV (.object (testEGVHead ++ ("status", .null) :: testEGVTail)) = .ok testEGV
    ∧ unmarshalEGV (.object (testEGVHead ++ testEGVTail))
      = unmarshalEGV (.object (testEGVHead ++ ("status", .null) :: testEGVTail)) :=
  ⟨rfl, rfl, rfl⟩

/-- C13, amended: for each of the EGV fields `status`, `trend` and `trendRate`,
of three JSON objects that differ only in that member being omitted, `null`, or
set to a value, and of which the first decodes to a record, the first two
decode to that same record, with the field nil, and the third decodes to the
record that differs from it exactly in that field holding the value: two
distinguishable states, absent-or-null and present, the present value returned
exactly. -/
theorem C13_optional_fields_two_states (pre post : List (String × JSON)) (e0 : EGV)
    (text : String) (rate : float64)
    (h0 : unmarshalEGV (.object (pre ++ post)) = .ok e0) :
    (otherMembers .Status (pre ++ post) →
      e0.Status = none
      ∧ unmarshalEGV (.object (pre ++ ("status", .null) :: post)) = .ok e0
      ∧ unmarshalEGV (.object (pre ++ ("status", .string text) :: post))
        = .ok { e0 with Status := some text }
      ∧ ({ e0 with Status := some text } : EGV) ≠ e0)
    ∧ (otherMembers .Trend (pre ++ post) →
      e0.Trend = none
      ∧ unmarshalEGV (.object (pre ++ ("trend", .null) :: post)) = .ok e0
      ∧ unmarshalEGV (.object (pre ++ ("trend", .string text) :: post))
        = .ok { e0 with Trend := some text }
      ∧ ({ e0 with Trend := some text } : EGV) ≠ e0)
    ∧ (otherMembers .TrendRate (pre ++ post) →
      e0.TrendRate = none
      ∧ unmarshalEGV (.object (pre ++ ("trendRate", .null) :: post)) = .ok e0
      ∧ unmarshalEGV (.object (pre ++ ("trendRate", .number rate) :: post))
        = .ok { e0 with TrendRate := some rate }
      ∧ ({ e0 with TrendRate := some rate } : EGV) ≠ e0) := by
  have h1 : decodeMembers zeroEGV (pre ++ post) = .ok e0 := h0
  refine ⟨?_, ?_, ?_⟩
  · intro h
    obtain ⟨a, b, c⟩ := optional_member .Status "status" (.string text)
      (fun e => { e with Status := none }) (fun e => { e with Status := some text })
      (store_comm_Status none) (store_comm_Status (some text)) rfl (fun _ => rfl) (fun _ => rfl)
      pre post h e0 h1
    have hn : e0.Status = none := by
      have := congrArg EGV.Status a
      exact this.symm
    refine ⟨hn, b, c, ?_⟩
    intro hne
    have := congrArg EGV.Status hne
    rw [hn] at this
    cases this
  · intro h
    obtain ⟨a, b, c⟩ := optional_member .Trend "trend" (.string text)
      (fun e => { e with Trend := none }) (fun e => { e with Trend := some text })
      (store_comm_Trend none) (store_comm_Trend (some text)) rfl (fun _ => rfl) (fun _ => rfl)
      pre post h e0 h1
    have hn : e0.Trend = none := by
      have := congrArg EGV.Trend a
      exact this.symm
    refine ⟨hn, b, c, ?_⟩
    intro hne
    have := congrArg EGV.Trend hne
    rw [hn] at this
    cases this
  · intro h
    obtain ⟨a, b, c⟩ := optional_member .TrendRate "trendRate" (.number rate)
      (fun e => { e with TrendRate := none }) (fun e => { e with TrendRate := some rate })
      (store_comm_TrendRate none) (store_comm_TrendRate (some rate)) rfl (fun _ => rfl)
      (fun _ => rfl) pre post h e0 h1
    have hn : e0.TrendRate = none := by
      have := congrArg EGV.TrendRate a
      exact this.symm
    refine ⟨hn, b, c, ?_⟩
    intro hne
    have := congrArg EGV.TrendRate hne
    rw [hn] at this
    cases this

/-- Witness of C13: the reading of the test without its `trend` member; with
`"trend": "fortyFiveDown"` it decodes to the record that holds exactly that
text, with `"trend": null` to the record without it. -/
theorem C13_optional_fields_two_states_witness :
    unmarshalEGV (.object (testEGVHead ++ ("trend", .null) ::
        [("trendRate", .number { bits := 0xbff4cccccccccccd })]))
      = .ok { testEGV with Trend := none }
    ∧ unmarshalEGV (.object (testEGVHead ++ ("trend", .string "fortyFiveDown") ::
        [("trendRate", .number { bits := 0xbff4cccccccccccd })]))
      = .ok testEGV :=
  have w := (C13_optional_fields_two_states testEGVHead
    [("trendRate", .number { bits := 0xbff4cccccccccccd })] { testEGV with Trend := none }
    "fortyFiveDown" { bits := 0 } rfl).2.1 (by unfold otherMembers; decide)
  ⟨w.2.1, w.2.2.1⟩

/-- C14: no operation retries. For each of the six operations and every input,
at most one request is handed to `MakeRequest`; after a transport error or a
status outside 200..299 that request is the last call the operation makes, and
after a decode failure the decode attempt is: it returns without a second
request. -/
theorem C14_no_retry (rt : Runtime) (d : dexcomClient) (ctx : Context)
    (authorizationCode refreshToken redirectURI accessToken : String) (startDate endDate : Time)
    (stats : Stats) :
    noRetry d rt.unmarshalUserToken (d.GetUser rt ctx authorizationCode redirectURI).run
    ∧ noRetry d rt.unmarshalUserToken (d.RefreshUser rt ctx refreshToken redirectURI).run
    ∧ noRetry d rt.unmarshalDeviceResponse (d.GetDevices rt ctx accessToken startDate endDate).run
    ∧ noRetry d rt.unmarshalEGVResponse (d.GetEGVs rt ctx accessToken startDate endDate).run
    ∧ noRetry d rt.unmarshalEventResponse (d.GetEvents rt ctx accessToken startDate endDate).run
    ∧ noRetry d rt.unmarshalStatistics
        (d.GetStatistics rt ctx accessToken startDate endDate stats).run := by
  refine ⟨?_, ?_, ?_, ?_, ?_, ?_⟩
  · rw [GetUser_run]
    by_cases h : authorizationCode = ""
    · simp only [h, if_true]; exact noRetry_of_no_request d _ _ rfl
    · simp only [h, if_false]; exact noRetry_token rt d _
  · rw [RefreshUser_run]
    by_cases h : refreshToken = ""
    · simp only [h, if_true]; exact noRetry_of_no_request d _ _ rfl
    · simp only [h, if_false]; exact noRetry_token rt d _
  · rw [GetDevices_run]; exact noRetry_data d _ _
  · rw [GetEGVs_run]; exact noRetry_data d _ _
  · rw [GetEvents_run]; exact noRetry_data d _ _
  · rw [GetStatistics_run_cases]
    cases (rt.objectToJSONReader stats).2 with
    | some e => exact noRetry_of_no_request d _ _ rfl
    | none => exact noRetry_stats d _ stats _

/-- Witness of C14: the "exceptional path" of `TestUnit_GetDevices` (status
400) makes one request and stops at it. -/
theorem C14_no_retry_witness :
    (requestsOf ((testClient (testServer 400 "invalid_request")).GetDevices
        (testRuntime testTime "") background "123" testTime testTime).run.2).length ≤ 1
    ∧ ∃ r, ((testClient (testServer 400 "invalid_request")).GetDevices
        (testRuntime testTime "") background "123" testTime testTime).run.2.getLast?
          = some (Call.MakeRequest r) :=
  have w := (C14_no_retry (testRuntime testTime "") (testClient (testServer 400 "invalid_request"))
    background "123" "123" "abc" "123" testTime testTime (testStats testTime)).2.2.1
  ⟨w.1, (w.2 400 "invalid_request" none ⟨_, rfl, rfl⟩).1 (Or.inr (Or.inr (by decide)))⟩

/-- C15: in a successful token exchange the returned expiry time depends only
on the clock and the decoded `expires_in`. For two exchanges (`GetUser` or
`RefreshUser`) answered with 2xx bodies whose decoded tokens agree on
`access_token`, `refresh_token`, `expires_in` and `token_type`, whatever their
`expire_time`, the returned tokens are equal, expiry time included, for the
same clock: a decoded `expire_time` is overwritten. -/
theorem C15_expire_time_overwritten (rt : Runtime) (d1 d2 : dexcomClient) (ctx1 ctx2 : Context)
    (credential1 credential2 redirectURI1 redirectURI2 : String) (s1 s2 : Int)
    (body1 body2 : String) (v1 v2 : UserToken)
    (h1 : 200 ≤ s1 ∧ s1 < 300) (h2 : 200 ≤ s2 ∧ s2 < 300)
    (hd1 : rt.unmarshalUserToken body1 = .ok v1) (hd2 : rt.unmarshalUserToken body2 = .ok v2)
    (hA : v1.AccessToken = v2.AccessToken) (hR : v1.RefreshToken = v2.RefreshToken)
    (hE : v1.ExpiresIn = v2.ExpiresIn) (hT : v1.TokenType = v2.TokenType) :
    (repliedWith d1 (d1.GetUser rt ctx1 credential1 redirectURI1).run (s1, body1, none) →
      repliedWith d2 (d2.GetUser rt ctx2 credential2 redirectURI2).run (s2, body2, none) →
      sameToken rt v1 (d1.GetUser rt ctx1 credential1 redirectURI1).run.1
        (d2.GetUser rt ctx2 credential2 redirectURI2).run.1)
    ∧ (repliedWith d1 (d1.RefreshUser rt ctx1 credential1 redirectURI1).run (s1, body1, none) →
      repliedWith d2 (d2.RefreshUser rt ctx2 credential2 redirectURI2).run (s2, body2, none) →
      sameToken rt v1 (d1.RefreshUser rt ctx1 credential1 redirectURI1).run.1
        (d2.RefreshUser rt ctx2 credential2 redirectURI2).run.1) := by
  have val : ∀ (r : Request) (s : Int) (body : String) (v : UserToken),
      200 ≤ s ∧ s < 300 → rt.unmarshalUserToken body = .ok v →
      (stampExpiry rt (interpretReply rt.unmarshalUserToken r (s, body, none))).1 =
        (some (restamped rt v), none) := by
    intro r s body v hs hd
    rw [interpretReply_decoded _ r s body v hs.1 hs.2 hd]
    rfl
  have eqv : restamped rt v1 = restamped rt v2 := by
    simp only [restamped, hA, hR, hE, hT]
  constructor
  · intro hr1 hr2
    have e1 := GetUser_outcome rt d1 ctx1 credential1 redirectURI1 (s1, body1, none)
      (fun o => o.1 = (some (restamped rt v1), none)) (fun r => val r s1 body1 v1 h1 hd1) hr1
    have e2 := GetUser_outcome rt d2 ctx2 credential2 redirectURI2 (s2, body2, none)
      (fun o => o.1 = (some (restamped rt v2), none)) (fun r => val r s2 body2 v2 h2 hd2) hr2
    simp only at e1 e2
    exact ⟨by rw [e1, e2, eqv], _, e1, rfl, rfl, rfl, rfl, rfl⟩
  · intro hr1 hr2
    have e1 := RefreshUser_outcome rt d1 ctx1 credential1 redirectURI1 (s1, body1, none)
      (fun o => o.1 = (some (restamped rt v1), none)) (fun r => val r s1 body1 v1 h1 hd1) hr1
    have e2 := RefreshUser_outcome rt d2 ctx2 credential2 redirectURI2 (s2, body2, none)
      (fun o => o.1 = (some (restamped rt v2), none)) (fun r => val r s2 body2 v2 h2 hd2) hr2
    simp only at e1 e2
    exact ⟨by rw [e1, e2, eqv], _, e1, rfl, rfl, rfl, rfl, rfl⟩

/-- Witness of C15: the token body of the tests, once as it is and once with an
`expire_time` of 2001 added; with the clock at `testTime` `GetUser` returns the
same token for both. -/
theorem C15_expire_time_overwritten_witness :
    ((testClient (testServer 200 testUserTokenBody)).GetUser (stampedRuntime testTime)
        background "123" "abc").run.1
      = ((testClient (testServer 200 stampedTokenBody)).GetUser (stampedRuntime testTime)
        background "123" "abc").run.1 :=
  ((C15_expire_time_overwritten (stampedRuntime testTime)
      (testClient (testServer 200 testUserTokenBody)) (testClient (testServer 200 stampedTokenBody))
      background background "123" "123" "abc" "abc" 200 200 testUserTokenBody stampedTokenBody
      testUserToken stampedToken (by decide) (by decide) rfl rfl rfl rfl rfl rfl).1
    ⟨_, rfl, rfl⟩ ⟨_, rfl, rfl⟩).1

/-- C16: when the serialiser of the stats mapping returns the error `e`,
`GetStatistics` returns no result and exactly `e`, and hands nothing to
`MakeRequest`; when it returns `body` without error, the body of the one
request is exactly `body`, and for a serialiser that writes JSON that is the
text of `marshalStats`, in which each `StatRequest` is an object with the
members `name`, `startTime`, `endTime` and `egvrange`, the last an object with
the members `min` and `max`. -/
theorem C16_statistics_body (rt : Runtime) (d : dexcomClient) (ctx : Context)
    (accessToken : String) (startDate endDate : Time) (stats : Stats)
    (body : Option String) (err : Option DataError)
    (h : rt.objectToJSONReader stats = (body, err)) :
    serialisedOutcome stats body err
      (d.GetStatistics rt ctx accessToken startDate endDate stats).run
    ∧ (∀ (render : JSON → String) (timeText : Time → String),
        serialisesAsJSON rt render timeText stats →
        ∃ r, requestsOf (d.GetStatistics rt ctx accessToken startDate endDate stats).run.2 = [r]
          ∧ r.body = some (render (marshalStats timeText stats)))
    ∧ (∀ (timeText : Time → String) (q : StatRequest),
        (StatRequest.toJSON timeText q).keys = ["name", "startTime", "endTime", "egvrange"]
        ∧ q.EGVRange.toJSON.keys = ["min", "max"]
        ∧ StatRequest.toJSON timeText q =
          .object [("name", .string q.Name), ("startTime", .string (timeText q.StartTime)),
                   ("endTime", .string (timeText q.EndTime)),
                   ("egvrange", .object [("min", .number q.EGVRange.Min),
                                         ("max", .number q.EGVRange.Max)])]) := by
  refine ⟨⟨?_, ?_⟩, ?_, fun _ _ => ⟨rfl, rfl, rfl⟩⟩
  · intro e he
    subst he
    rw [GetStatistics_run_error rt d ctx accessToken startDate endDate stats body e h]
    exact ⟨rfl, rfl⟩
  · intro he
    subst he
    rw [GetStatistics_run rt d ctx accessToken startDate endDate stats body h]
    refine ⟨dataRequest ctx "POST" "/v1/users/self/statistics" accessToken startDate endDate
      body, ?_, rfl⟩
    simp only [prependCall, requestsOf, requestsOf_interpretReply]
  · intro render timeText hser
    rw [GetStatistics_run rt d ctx accessToken startDate endDate stats _ hser]
    refine ⟨dataRequest ctx "POST" "/v1/users/self/statistics" accessToken startDate endDate
      (some (render (marshalStats timeText stats))), ?_, rfl⟩
    simp only [prependCall, requestsOf, requestsOf_interpretReply]

/-- Witness of C16: the call of `TestUnit_GetStatistics`, once with a
serialiser that fails, where the error comes back and the trace holds the
serialiser's call alone, and once with one that returns an empty JSON object,
which is the body of the request. -/
theorem C16_statistics_body_witness :
    ((testClient (testServer 200 testStatisticsBody)).GetStatistics
        (failingRuntime testTime testMarshalError) background "123" testTime testTime
        (testStats testTime)).run
      = ((none, some testMarshalError), [Call.ObjectToJSONReader (testStats testTime)])
    ∧ ∃ r, requestsOf ((testClient (testServer 200 testStatisticsBody)).GetStatistics
          (testRuntime testTime "\x7b\x7d") background "123" testTime testTime
          (testStats testTime)).run.2 = [r]
        ∧ r.body = some "\x7b\x7d" :=
  ⟨((C16_statistics_body (failingRuntime testTime testMarshalError)
      (testClient (testServer 200 testStatisticsBody)) background "123" testTime testTime
      (testStats testTime) none (some testMarshalError) rfl).1.1 testMarshalError rfl).1,
   (C16_statistics_body (testRuntime testTime "\x7b\x7d")
      (testClient (testServer 200 testStatisticsBody)) background "123" testTime testTime
      (testStats testTime) (some "\x7b\x7d") none rfl).1.2 rfl⟩

end dexcom
